import Mathlib

/-!
Shallow embedding of `src/scripts/export_electrical.py` (inkscape-bim-scripts).

The script walks an SVG document tree, resolves electrical symbols with
inherited context attributes, parses circuit labels, and aggregates the
resolved symbols into per-distribution-box circuit tables and a switch table.

Modelling conventions:
* Python dictionaries passed as `**kwargs` become a `Ctx` structure passed by
  value (each Python call receives a fresh dict, so a functional value-passing
  embedding is faithful).
* Python `None`-or-string values become `Option String` (`none` = `None`);
  a dictionary key that can be absent is modelled with an extra `Option`
  layer or a separate `Option` field, as noted per field.
* Geometry (point-in-polygon containment, bounding boxes) is abstracted into
  boolean/option-valued oracle functions carried in an environment record;
  the traversal and bookkeeping logic around those queries is embedded
  faithfully.
* Attribute accesses that can raise `AttributeError` in Python (for example
  `symbol.fixture` when no fixture was resolved) are embedded as
  `Option`-returning computations: `none` models the crash.
* Strings are assumed to contain no newline characters (SVG labels in this
  document are single-line), so the Python regex `.` and `$` sematics
  coincide with the total-string reading used here.
-/

namespace Elektra

/-- Python `str(x)` for an optional string (`str(None) = "None"`). -/
def pyStr : Option String → String
  | none => "None"
  | some s => s

/-- The apostrophe character, used in rendered descriptions. -/
def apos : String := String.singleton (Char.ofNat 39)

/-- Symbol variants: the `Symbol` subclasses of the script.
`FixtureConnection` subclasses `JunctionBox` in the source; the subclass
relation is encoded in `isJunctionBox` below. -/
inductive Variant where
  | Outlet
  | Fixture
  | EmergencyFixture
  | JunctionBox
  | FixtureConnection
  | Connection
  | Switch
  | DistributionCabinet
  | Device
deriving DecidableEq, Repr

/-- `isinstance(x, JunctionBox)`: `FixtureConnection` is a subclass. -/
def Variant.isJunctionBox : Variant → Bool
  | .JunctionBox => true
  | .FixtureConnection => true
  | _ => false

/-- The class-level `sublayers` attribute of each `Symbol` subclass. -/
def sublayersOf : Variant → List (Option String)
  | .Outlet => [some "WCD_etc"]
  | .Fixture => [some "Verlichting"]
  | .EmergencyFixture => [some "NV"]
  | .JunctionBox => [some "Lasdozen"]
  | .FixtureConnection => [some "Lasdozen", some "WCD_etc"]
  | .Connection => [some "WCD_etc"]
  | .Switch => [some "WCD_etc"]
  | .DistributionCabinet => [none, some "Installaties"]
  | .Device => [some "Installaties"]

/-- `FixtureInfo` named tuple. `kind` is `Option` because the `Z` entry has
`None` for its kind. -/
structure FixtureInfo where
  kind : Option String
  model : String
  count : Nat
  power : Nat
deriving DecidableEq, Repr

/-- The static `FIXTURES` table. -/
def FIXTURES : List (String × FixtureInfo) := [
  ("A1", ⟨some "TL", "Philips TBS300", 2, 58⟩),
  ("A2", ⟨some "TL", "Philips Pacific 196S", 2, 58⟩),
  ("B1", ⟨some "TL", "Philips TBS300", 2, 36⟩),
  ("B2", ⟨some "TL", "Philips TMX 100/WE", 2, 36⟩),
  ("D1", ⟨some "TL", "Philips TCS 221", 1, 36⟩),
  ("D2", ⟨some "TL", "Norton AXP 1/36W IND", 1, 36⟩),
  ("E1", ⟨some "TL", "Proli FLF T8", 4, 18⟩),
  ("F1", ⟨some "TL", "Norton RTP-X 4/14W HF FL83 GST T5", 4, 14⟩),
  ("I", ⟨some "Plafondlamp opbouw", "Luminance Giotto super", 2, 18⟩),
  ("J", ⟨some "?", "Luminance 7063", 1, 26⟩),
  ("M", ⟨some "Spotje inbouw", "Girofix 5086 GU5.3 MR16 12V", 1, 50⟩),
  ("N", ⟨some "Spotje inbouw", "Ikea LED 12V", 1, 0⟩),
  ("L", ⟨some "?", "Norton ARS258", 2, 58⟩),
  ("P", ⟨some "Spotje inbouw", "Diep klein spotje met glas", 1, 0⟩),
  ("Q", ⟨some "Wandlamp buiten", "Philips FGC111 PL-S/2P", 1, 11⟩),
  ("R", ⟨some "Wandspotjes", "SLV Astina 151901/07 GU10", 2, 50⟩),
  ("S", ⟨some "Plafondlamp inbouw vierkant", "Niquelight DLK 230 PL-C", 2, 18⟩),
  ("T", ⟨some "Plafondlamp inbouw rond", "Ronde lampen met glasplaat en drie schroefjes", 1, 0⟩),
  ("U", ⟨some "Plafondlamp inbouw", "Teknilux 62320 HF", 2, 26⟩),
  ("V", ⟨some "Plafondlamp buiten", "Depa Protect 001", 2, 9⟩),
  ("Y", ⟨some "TL", "Overig/onbekend", 1, 36⟩),
  ("Z", ⟨none, "Overig/onbekend", 1, 0⟩)]

/-- A `CIRCUITS_PER_DIST` entry: a plain circuit slot, or a
`(slot, fixed label)` pair for reserved or pre-labelled slots. Python
applies `str` to integer slots; the integers are pre-rendered here. -/
inductive SkelEntry where
  | plain (slot : String)
  | labeled (slot : String) (label : String)
deriving DecidableEq, Repr

/-- `[i + 1 for i in range(n)]`, rendered through `str`. -/
def rangeSlots (n : Nat) : List SkelEntry :=
  (List.range n).map (fun i => .plain (toString (i + 1)))

/-- The static `CIRCUITS_PER_DIST` table. -/
def CIRCUITS_PER_DIST : List (String × List SkelEntry) := [
  ("HKL", [.plain "K1", .plain "K2", .plain "K3", .plain "K4", .plain "K5",
           .plain "K6", .plain "K7", .plain "8", .plain "9", .plain "10"]),
  ("L001", [.plain "K1", .plain "K2", .plain "K3"]),
  ("L002", rangeSlots 8 ++ [.labeled "3" "Reserve", .labeled "4" "Reserve",
           .labeled "5" "Reserve", .labeled "7" "Reserve"]),
  ("L01", rangeSlots 19 ++ [.labeled "16" "Reserve", .labeled "17" "Reserve",
           .labeled "19" "Verlichtingsrelais"]),
  ("L11", rangeSlots 15),
  ("L21", rangeSlots 12 ++ [.labeled "12" "Reserve"]),
  ("L02", rangeSlots 24 ++ [.labeled "7" "Reserve", .labeled "10" "Reserve"]),
  ("L12", rangeSlots 9 ++ [.labeled "9" "Reserve", .plain "K10", .plain "K11"]),
  ("L011", rangeSlots 5 ++ [.labeled "4" "Reserve", .labeled "5" "Reserve"]),
  ("NV", [.plain "1", .plain "2", .plain "3"]),
  ("RK1", [.plain "5F1"])]

/-- `LOCAL_SWITCHES = {a, b, c, d}`. -/
def LOCAL_SWITCHES : List String := ["a", "b", "c", "d"]

/-- Registry metadata for one `SYMBOLS` entry (`class`, `symbol`, and the
optional fixed `sockets`, `pair` and `label` attributes). -/
structure SymInfo where
  cls : Variant
  symbol : String
  sockets : Option Nat := none
  pair : Option Bool := none
  label : Option String := none
deriving DecidableEq, Repr

/-- The static `SYMBOLS` registry, keyed by the href identity token. -/
def SYMBOLS : List (String × SymInfo) := [
  ("noodverlichting", { cls := .EmergencyFixture, symbol := "NV" }),
  ("wcd-3fase", { cls := .Device, symbol := "Krachtstroom" }),
  ("lamp-tl-bak", { cls := .Fixture, symbol := "TL-bak" }),
  ("lamp-tl-balk", { cls := .Fixture, symbol := "TL-balk" }),
  ("lamp-tl-balkje", { cls := .Fixture, symbol := "TL-balkje" }),
  ("lamp-algemeen", { cls := .Fixture, symbol := "Lamp" }),
  ("lamp-klein", { cls := .Fixture, symbol := "Lampje" }),
  ("lamp-wand", { cls := .Fixture, symbol := "Wandlamp" }),
  ("aansluitpunt", { cls := .Connection, symbol := "Aansluitpunt" }),
  ("aansluitpunt-3fase", { cls := .Connection, symbol := "Aansluitpunt 3-fase" }),
  ("lasdoos-licht", { cls := .FixtureConnection, symbol := "Lichtpunt" }),
  ("lasdoos", { cls := .FixtureConnection, symbol := "Centraaldoos" }),
  ("blindplaat", { cls := .FixtureConnection, symbol := "Blindplaat" }),
  ("schakelaar-wissel", { cls := .Switch, symbol := "Hotelschakelaar", pair := some true }),
  ("schakelaar", { cls := .Switch, symbol := "Schakelaar" }),
  ("schakelaar-4polig", { cls := .Switch, symbol := "Vierfaseschakelaar" }),
  ("wcd-1", { cls := .Outlet, symbol := "WCD enkel", sockets := some 1 }),
  ("wcd-2v", { cls := .Outlet, symbol := "WCD dubbel vert", sockets := some 2 }),
  ("wcd-2h", { cls := .Outlet, symbol := "WCD dubbel horiz", sockets := some 2 }),
  ("wcd-4", { cls := .Outlet, symbol := "WCD viervoudig", sockets := some 4 }),
  ("wcd-plafond-1", { cls := .Outlet, symbol := "WCD op/boven plafond enkel", sockets := some 1 }),
  ("wcd-plafond-2v", { cls := .Outlet, symbol := "WCD op/boven plafond dubbel vert", sockets := some 2 }),
  ("wcd-plafond-2h", { cls := .Outlet, symbol := "WCD op/boven plafond dubbel horiz", sockets := some 2 }),
  ("kast", { cls := .DistributionCabinet, symbol := "Groepenkast" }),
  ("airco-plafond", { cls := .Device, symbol := "Airco", label := some "Airco" }),
  ("airco-muur", { cls := .Device, symbol := "Airco", label := some "Airco" })]

/-- A resolved `Symbol` record (`cls(**kwargs)` in `process_symbol`).
Fields of type `Option _` with `none` model either an absent attribute or a
`None` value, as indicated. The `obj` back-reference is dropped (it is used
only for diagnostics placement, never for business logic). -/
structure Symbol where
  variant : Variant
  symbol : String := ""
  floor : String := ""
  dist : String := ""
  /-- Present as a key whenever set by `process_layer`; value may be `None`. -/
  sublayer : Option String := none
  /-- The value of the `space` key (`none` = Python `None`). -/
  space : Option String := none
  /-- Outer `Option`: key absent; inner: value may be `None`. -/
  contour_dist : Option (Option String) := none
  /-- `none` = attribute absent. -/
  circuit : Option String := none
  /-- `none` = attribute absent. -/
  switch_group : Option String := none
  /-- `none` = attribute absent. -/
  global_switch_group : Option String := none
  /-- `none` = attribute absent. -/
  label : Option String := none
  /-- `none` = attribute absent. -/
  distbox_label : Option String := none
  /-- `none` = attribute absent. -/
  fixture_id : Option String := none
  /-- `none` = no `fixture` attribute was set (lookup failed or skipped). -/
  fixture : Option FixtureInfo := none
  /-- `none` = attribute absent. -/
  sockets : Option Nat := none
  /-- `none` = attribute absent; read back via `getattr(s, "pair", False)`. -/
  pair : Option Bool := none
deriving DecidableEq, Repr

/-- Diagnostics recorded through `ErrorCollector.warn`, by message kind.
Structural ancestry and node back-references are reduced to the object id
or the message arguments. -/
inductive Diag where
  | unknownContourObject (oid : Nat)
  | duplicateSpaceNumber (oid : Nat) (old : Option String) (new : String)
  | unknownObjectInNumberLayer (oid : Nat)
  | contourWithoutNumber (oid : Nat)
  | distContourNotInRoot (oid : Nat)
  | notInsideAnySpace (oid : Nat)
  | cloneInDifferentLayer (oid : Nat)
  | question (oid : Nat)
  | duplicateAttribute (cls : String) (old : Option String) (new : String)
  | unknownObject (oid : Nat)
  | wrongSublayer (found : Option String) (variant : Variant)
  | symbolOutsideDistContour (circuit : String) (layerDist : String) (contourDist : Option String)
  | distMismatch (circuit : String) (layerDist : String)
  | missingFixtureType
  | unknownFixtureType (id : String)
  | switchGroupWithoutSwitches (group : String)
  | onlyOneSwitchInPair (group : String)
  | mixedPairAndSingle (group : String)
  | tooManySwitches (group : String)
deriving DecidableEq, Repr

/-- Mutable state of a `ProcessElektra` run: the flat symbol list, the
collected diagnostics, and the dist-box contours registered so far.
A dist contour is `(floor, object id of the contour source, dist tag)`;
its polygon is abstracted by the containment oracle in `Env`. -/
structure PSt where
  symbols : List Symbol := []
  diags : List Diag := []
  distContours : List (String × Nat × String) := []
deriving Repr

/-- Record one diagnostic (`self.errors.warn`). -/
def PSt.warn (st : PSt) (d : Diag) : PSt :=
  { st with diags := st.diags ++ [d] }

/-- Traversal context: the `**kwargs` dictionary handed down the tree walk.
`floor`, `dist` and `sublayer` are always present (set by `process_layer`);
for the other keys the outermost `Option` (or the `Option` field itself)
models key presence. -/
structure Ctx where
  floor : String := ""
  dist : String := ""
  sublayer : Option String := none
  /-- Outer `Option`: key presence; inner: the value may be `None`. -/
  space : Option (Option String) := none
  /-- Outer `Option`: key presence; inner: the value may be `None`. -/
  contour_dist : Option (Option String) := none
  circuit : Option String := none
  switch_group : Option String := none
  label : Option String := none
  distbox_label : Option String := none
  fixture_id : Option String := none
deriving DecidableEq, Repr

/-!
### Circuit label parsing

`process_symbol` matches the raw circuit label against the Python regex

  `([A-Z]+|.*(?=\.)|)\.?((?<=\.).*|[0-9?+]+|(?<=^).*)$`

anchored at the start by `re.match`. The embedding below reproduces the
backtracking order of the Python engine on newline-free input:
group 1 tries, in order, a (greedy, backtrackable) run of capital letters,
then everything before the last literal dot, then the empty string; the
optional dot is consumed greedily; group 2 succeeds and captures the whole
remainder exactly when the position is just after a dot, or the remainder is
a nonempty run of `[0-9?+]`, or the position is the start of the string.
-/

/-- A character the second capture group class `[0-9?+]` accepts. -/
def isDesigChar (c : Char) : Bool := c.isDigit || c = '?' || c = '+'

/-- A capital letter `[A-Z]`. -/
def isUpperAZ (c : Char) : Bool := 'A' ≤ c && c ≤ 'Z'

/-- Whether group 2 can match (capturing the whole remainder `rest`):
after a literal dot `(?<=\.).*` always matches; otherwise a nonempty
`[0-9?+]+` run must span the rest; otherwise the lookbehind `(?<=^)`
requires the start of the string. -/
def g2ok (precededByDot atStart : Bool) (rest : List Char) : Bool :=
  precededByDot || (!rest.isEmpty && rest.all isDesigChar) || atStart

/-- Having committed group 1 to `g1` with remainder `rest`, consume the
optional dot greedily, then test group 2. Returns the two captures. -/
def afterG1 (g1 rest : List Char) : Option (List Char × List Char) :=
  match rest with
  | '.' :: restTail => some (g1, restTail)
  | _ =>
    if g2ok (g1.getLast? = some '.') g1.isEmpty rest then some (g1, rest)
    else none

/-- Backtracking over the greedy `[A-Z]+` alternative of group 1: try the
prefix lengths `k, k-1, ..., 1`. -/
def tryUpperLens (cs : List Char) : Nat → Option (List Char × List Char)
  | 0 => none
  | k + 1 =>
    match afterG1 (cs.take (k + 1)) (cs.drop (k + 1)) with
    | some r => some r
    | none => tryUpperLens cs k

/-- Index of the last dot in the list, if any. -/
def lastDotIdx (cs : List Char) : Option Nat :=
  match cs.reverse.findIdx? (· = '.') with
  | none => none
  | some j => some (cs.length - 1 - j)

/-- The full match: the three alternatives of group 1 in order. The regex
never fails on newline-free input (the third alternative always succeeds),
so the result is total. -/
def pyMatchCircuit (s : String) : String × String :=
  let cs := s.data
  match tryUpperLens cs (cs.takeWhile isUpperAZ).length with
  | some (g1, g2) => (g1.asString, g2.asString)
  | none =>
    match lastDotIdx cs with
    | some i => ((cs.take i).asString, (cs.drop (i + 1)).asString)
    | none =>
      match cs with
      | '.' :: rest => ("", rest.asString)
      | _ => ("", s)

/-- Split a character list at every occurrence of `sep`, keeping empty
pieces (Python `str.split(sep)` with a one-character separator). -/
def splitChar (sep : Char) (cs : List Char) : List (List Char) :=
  cs.foldr
    (fun c acc =>
      match acc with
      | [] => [[c]]
      | a :: rest => if c = sep then [] :: a :: rest else (c :: a) :: rest)
    [[]]

/-- Python `s.split("+")`. -/
def pySplitPlus (s : String) : List String :=
  (splitChar '+' s.data).map List.asString

/-- The `kwargs.update(**info)` effect on `label`: a registry label
overrides an inherited context label. -/
def effectiveLabel (info : SymInfo) (ctx : Ctx) : Option String :=
  match info.label with
  | some l => some l
  | none => ctx.label

/-- The sub-layer validation of `process_symbol`. -/
def sublayerStage (info : SymInfo) (ctx : Ctx) (st : PSt) : PSt :=
  if (sublayersOf info.cls).contains ctx.sublayer then st
  else st.warn (.wrongSublayer ctx.sublayer info.cls)

/-- The circuit-label block of `process_symbol`: parse the label, reconcile
it against the structural and contour distribution boxes, and return the
(possibly rewritten) stored circuit value. -/
def circuitStage (ctx : Ctx) (st : PSt) : Option String × PSt :=
  match ctx.circuit with
  | none => (none, st)
  | some c =>
    if c = "" then (some c, st)
    else
      let parsed := pyMatchCircuit c
      let label_dist := parsed.1
      let new_circuit := parsed.2
      let contourD := ctx.contour_dist.getD none
      let st := if label_dist = "" ∧ contourD ≠ some ctx.dist then
          st.warn (.symbolOutsideDistContour c ctx.dist contourD)
        else st
      if label_dist ≠ "" ∧ label_dist ≠ ctx.dist then
        (some c, st.warn (.distMismatch c ctx.dist))
      else
        (some new_circuit, st)

/-- The fixture-id defaulting of `process_symbol`. Only the local variable
feeding the table lookup is defaulted; the `fixture_id` entry stored on the
symbol is never rewritten. -/
def fixtureIdStage (info : SymInfo) (ctx : Ctx) (st : PSt) : Option String × PSt :=
  let fid0 := ctx.fixture_id
  let fres1 : Option String × PSt :=
    if info.cls = Variant.Fixture ∧ (fid0 = none ∨ fid0 = some "") then
      (some "Z", st.warn .missingFixtureType)
    else (fid0, st)
  let fid2 := if fres1.1 = some "?" then some "Z" else fres1.1
  (fid2, fres1.2)

/-- The `FIXTURES` lookup of `process_symbol`: a truthy but unknown id is a
diagnostic and leaves the `fixture` attribute unset. -/
def fixtureLookupStage (fid : Option String) (st : PSt) : Option FixtureInfo × PSt :=
  match fid with
  | none => (none, st)
  | some f =>
    if f = "" then (none, st)
    else
      match FIXTURES.lookup f with
      | some fi => (some fi, st)
      | none => (none, st.warn (.unknownFixtureType f))

/-- The symbol record shared by every fan-out copy (`cls(**kwargs)` without
the `global_switch_group` entry). -/
def symbolBase (info : SymInfo) (ctx : Ctx) (circuit : Option String)
    (fixture : Option FixtureInfo) : Symbol :=
  { variant := info.cls, symbol := info.symbol, floor := ctx.floor,
    dist := ctx.dist, sublayer := ctx.sublayer,
    space := ctx.space.getD none, contour_dist := ctx.contour_dist,
    circuit := circuit, switch_group := ctx.switch_group,
    label := effectiveLabel info ctx,
    distbox_label := ctx.distbox_label, fixture_id := ctx.fixture_id,
    fixture := fixture, sockets := info.sockets, pair := info.pair }

/-- One iteration of the switch-group fan-out loop. The
`global_switch_group` entry persists in `kwargs` across iterations, so an
empty token inherits the value set by the previous token. -/
def fanoutStep (base : Symbol) (spaceStr : String)
    (acc : List Symbol × Option String) (tok : String) : List Symbol × Option String :=
  let gsg := if tok ≠ "" then
      some (if LOCAL_SWITCHES.contains tok then spaceStr ++ "-" ++ tok else tok)
    else acc.2
  (acc.1 ++ [{ base with global_switch_group := gsg }], gsg)

/-- The switch-group fan-out: one symbol per `+`-separated token of the
switch-group context (a single symbol when the context is absent). -/
def fanoutSyms (base : Symbol) (spaceStr : String) (switch_group : Option String) :
    List Symbol :=
  ((pySplitPlus (switch_group.getD "")).foldl (fanoutStep base spaceStr) ([], none)).1

/-- `ProcessElektra.process_symbol`: validate the sub-layer, parse and
reconcile the circuit label, resolve fixture metadata, and append one
symbol per `+`-separated switch-group token. -/
def process_symbol (info : SymInfo) (ctx : Ctx) (st : PSt) : PSt :=
  let st := sublayerStage info ctx st
  let cres := circuitStage ctx st
  let fres1 := fixtureIdStage info ctx cres.2
  let fres2 := fixtureLookupStage fres1.1 fres1.2
  let base := symbolBase info ctx cres.1 fres2.1
  let syms := fanoutSyms base (pyStr (ctx.space.getD none)) ctx.switch_group
  { fres2.2 with symbols := fres2.2.symbols ++ syms }

/-!
### Natural sorting (`natsort.natsorted`)

The default `natsort` key splits a string into alternating non-digit/digit
runs, converting digit runs to integers; the key of a string always starts
with a (possibly empty) string chunk. Python `sorted` is stable; stability
is reproduced by tagging every element with its original index and sorting
by the strict lexicographic order on `(key, index)`.
-/

/-- One chunk of a natural-sort key. -/
inductive Chunk where
  | str (v : String)
  | num (v : Nat)
deriving DecidableEq, Repr

/-- Chunk comparison. Mixed constructors cannot arise when comparing two
well-formed keys (both alternate starting with a string chunk). -/
def chunkLt : Chunk → Chunk → Bool
  | .str a, .str b => decide (a < b)
  | .num a, .num b => decide (a < b)
  | .str _, .num _ => true
  | .num _, .str _ => false

/-- Lexicographic comparison of chunk lists (Python tuple comparison:
a strict prefix is smaller). -/
def chunksLt : List Chunk → List Chunk → Bool
  | _, [] => false
  | [], _ :: _ => true
  | a :: as, b :: bs => if a = b then chunksLt as bs else chunkLt a b

/-- Group consecutive characters into maximal runs with a digit flag. -/
def pushRun (c : Char) : List (Bool × List Char) → List (Bool × List Char)
  | [] => [(c.isDigit, [c])]
  | (d, run) :: rest =>
    if c.isDigit = d then (d, c :: run) :: rest
    else (c.isDigit, [c]) :: (d, run) :: rest

/-- Maximal digit/non-digit runs of a character list. -/
def splitRuns (cs : List Char) : List (Bool × List Char) := cs.foldr pushRun []

/-- Numeric value of a digit run (leading zeros collapse, as in `int()`). -/
def digitsToNat (ds : List Char) : Nat :=
  ds.foldl (fun n c => n * 10 + (c.toNat - 48)) 0

/-- The `natsort` key of a string. -/
def natChunks (s : String) : List Chunk :=
  let runs := splitRuns s.data
  let tail := runs.map
    (fun r => if r.1 then Chunk.num (digitsToNat r.2) else Chunk.str r.2.asString)
  match runs with
  | [] => [Chunk.str ""]
  | (d, _) :: _ => if d then Chunk.str "" :: tail else tail

/-- Insert into a sorted list, in front of the first strictly greater
element. -/
def insertByLt {α : Type} (lt : α → α → Bool) (a : α) : List α → List α
  | [] => [a]
  | b :: l => if lt a b then a :: b :: l else b :: insertByLt lt a l

/-- Insertion sort by a boolean less-than. -/
def sortByLt {α : Type} (lt : α → α → Bool) (l : List α) : List α :=
  l.foldr (insertByLt lt) []

/-- Python stable `sorted(l, key=...)`: tag with indices, sort with the
strict lexicographic `(key, index)` order (ties in the key keep the original
order), untag. -/
def pySortOn {α κ : Type} (ltk : κ → κ → Bool) (key : α → κ) (l : List α) : List α :=
  let tagged := l.enum.map (fun p => ((key p.2, p.1), p.2))
  let lt := fun (x y : (κ × Nat) × α) =>
    ltk x.1.1 y.1.1 || (!ltk x.1.1 y.1.1 && !ltk y.1.1 x.1.1 && decide (x.1.2 < y.1.2))
  (sortByLt lt tagged).map (·.2)

/-- Python code-point string comparison. -/
def pyStrLt (a b : String) : Bool := decide (a < b)

/-- `natsort` key comparison for a `(space, count)` dictionary item. -/
def natItemLt (a b : List Chunk × Nat) : Bool :=
  chunksLt a.1 b.1 || (a.1 = b.1 && a.2 < b.2)

/-- Plain pair-of-integers comparison (for `powers.items()`). -/
def natPairLt (a b : Nat × Nat) : Bool :=
  a.1 < b.1 || (a.1 = b.1 && a.2 < b.2)

/-- `str.lstrip("K")`. -/
def lstripK (s : String) : String := (s.data.dropWhile (· == 'K')).asString

/-!
### Aggregation (`symbols_description`, `circuit_tables`, `switches_table`)
-/

/-- Bump a counter in an insertion-ordered association list (`defaultdict`
with integer values: an unseen key is appended at the end). -/
def bumpBy {κ : Type} [DecidableEq κ] (m : List (κ × Nat)) (k : κ) (n : Nat) :
    List (κ × Nat) :=
  match m with
  | [] => [(k, n)]
  | (k0, v) :: rest => if k0 = k then (k0, v + n) :: rest else (k0, v) :: bumpBy rest k n

/-- Bump a counter in a nested `defaultdict(lambda: defaultdict(int))`. -/
def bumpNest {κ₁ κ₂ : Type} [DecidableEq κ₁] [DecidableEq κ₂]
    (m : List (κ₁ × List (κ₂ × Nat))) (k₁ : κ₁) (k₂ : κ₂) (n : Nat) :
    List (κ₁ × List (κ₂ × Nat)) :=
  match m with
  | [] => [(k₁, [(k₂, n)])]
  | (k0, v) :: rest =>
    if k0 = k₁ then (k0, bumpBy v k₂ n) :: rest else (k0, v) :: bumpNest rest k₁ k₂ n

/-- The six tally buckets accumulated by `symbols_description`. All are
insertion-ordered association lists mirroring Python dictionaries. -/
structure DescSt where
  sockets : List (String × Nat) := []
  efixtures : List (String × Nat) := []
  fixtures : List (String × List (Nat × Nat)) := []
  labels : List (String × List (String × Nat)) := []
  fixture_connections : List (String × Nat) := []
  switches : List (String × Nat) := []
deriving DecidableEq, Repr

/-- The action one symbol performs on the tally buckets: skip (printed or
intentionally ignored symbols), or bump exactly one bucket. -/
inductive DescAct where
  | skip
  | bumpLabel (lbl sp : String)
  | bumpSockets (sp : String) (n : Nat)
  | bumpEfix (sp : String)
  | bumpFix (sp : String) (pw cnt : Nat)
  | bumpFC (sp : String)
  | bumpSwitch (sp : String)
deriving DecidableEq, Repr

/-- The tally-loop branch selection of `symbols_description` for one
symbol, as a pure per-symbol decision. `none` models the `AttributeError`
raised when a required attribute is missing (a `DistributionCabinet`
without `distbox_label`, an `Outlet` without `sockets`, a `Fixture` whose
`fixture` metadata lookup failed). -/
def descAct (symbol : Symbol) : Option DescAct :=
  let space := pyStr symbol.space
  let ltruthy : Option String :=
    match symbol.label with
    | some l => if l = "" then none else some l
    | none => none
  match ltruthy with
  | some l =>
    if l = "AC" ∧ symbol.variant = Variant.Outlet then some .skip
    else some (.bumpLabel l space)
  | none =>
    match symbol.variant with
    | .DistributionCabinet =>
      (symbol.distbox_label).map (fun dl => .bumpLabel dl space)
    | .Outlet =>
      if symbol.switch_group.isSome then some .skip
      else (symbol.sockets).map (fun n => .bumpSockets space n)
    | .EmergencyFixture => some (.bumpEfix space)
    | .Fixture =>
      (symbol.fixture).map (fun fi => .bumpFix space fi.power fi.count)
    | .FixtureConnection => some (.bumpFC space)
    | .Switch => some (.bumpSwitch space)
    | .Device => some .skip
    | .Connection => some .skip
    | .JunctionBox => some .skip

/-- Apply one tally action to the buckets. -/
def applyAct (st : DescSt) : DescAct → DescSt
  | .skip => st
  | .bumpLabel lbl sp => { st with labels := bumpNest st.labels lbl sp 1 }
  | .bumpSockets sp n => { st with sockets := bumpBy st.sockets sp n }
  | .bumpEfix sp => { st with efixtures := bumpBy st.efixtures sp 1 }
  | .bumpFix sp pw cnt => { st with fixtures := bumpNest st.fixtures sp pw cnt }
  | .bumpFC sp => { st with fixture_connections := bumpBy st.fixture_connections sp 1 }
  | .bumpSwitch sp => { st with switches := bumpBy st.switches sp 1 }

/-- One iteration of the tally loop of `symbols_description`. -/
def descStep (symbol : Symbol) (st : DescSt) : Option DescSt :=
  (descAct symbol).map (applyAct st)

/-- The tally phase of `symbols_description` over a whole symbol list. -/
def descBuckets (symbols : List Symbol) : Option DescSt :=
  symbols.foldl (fun acc s => acc.bind (descStep s)) (some {})

/-- `f-string` rendering of one `(space, count)` item, count always shown. -/
def fmtCount (x : String × Nat) : String :=
  x.1 ++ " (" ++ toString x.2 ++ "×)"

/-- Rendering with the count omitted when it is one. -/
def fmtCountOpt (x : String × Nat) : String :=
  if x.2 > 1 then fmtCount x else x.1

/-- Render a counts bucket: natural-sorted items joined by a comma. -/
def renderCounts (items : List (String × Nat)) (always : Bool) : String :=
  String.intercalate ", "
    ((pySortOn natItemLt (fun x => (natChunks x.1, x.2)) items).map
      (fun x => if always then fmtCount x else fmtCountOpt x))

/-- Render one space of the fixtures bucket. -/
def renderPowers (powers : List (Nat × Nat)) : String :=
  String.intercalate ", "
    ((pySortOn natPairLt id powers).map
      (fun pc => if pc.1 ≠ 0 then toString pc.2 ++ "×" ++ toString pc.1 ++ "W"
                 else toString pc.2 ++ "×"))

/-- The `Verlichting` line. -/
def renderFixtures (fx : List (String × List (Nat × Nat))) : String :=
  "Verlichting: " ++ String.intercalate ", "
    ((pySortOn pyStrLt (fun x => x.1) fx).map
      (fun sp => sp.1 ++ " (" ++ renderPowers sp.2 ++ ")"))

/-- One line of the labels bucket; a label whose spaces dictionary is
exactly `{"": 1}` (a skeleton dummy device) renders as the bare label. -/
def renderLabel (x : String × List (String × Nat)) : String :=
  if x.2 = [("", 1)] then x.1
  else x.1 ++ ": " ++ renderCounts x.2 false

/-- The rendering phase of `symbols_description`; bucket emission order is
fixed, lines are joined with the asciidoc line continuation. -/
def renderDesc (st : DescSt) (show_fixture_connections show_switches : Bool) : String :=
  let description : List String :=
    (if st.switches ≠ [] ∧ show_switches then
      ["Schakelaars: " ++ renderCounts st.switches false] else [])
    ++ (if st.fixture_connections ≠ [] ∧ show_fixture_connections then
      ["Lichtpunten: " ++ renderCounts st.fixture_connections true] else [])
    ++ (if st.sockets ≠ [] then
      ["WCD" ++ apos ++ "s: " ++ renderCounts st.sockets true] else [])
    ++ (if st.efixtures ≠ [] then
      ["NV: " ++ renderCounts st.efixtures false] else [])
    ++ (if st.fixtures ≠ [] then [renderFixtures st.fixtures] else [])
    ++ ((pySortOn pyStrLt (fun x => x.1) st.labels).map renderLabel)
  String.intercalate " +\n" description

/-- `ProcessElektra.symbols_description`: tally then render; `none` models
an `AttributeError` crash on a malformed symbol. -/
def symbols_description (symbols : List Symbol)
    (show_fixture_connections show_switches : Bool) : Option String :=
  (descBuckets symbols).map
    (fun st => renderDesc st show_fixture_connections show_switches)

/-- Insert a string into a sorted duplicate-free list. -/
def insertSortedDedup (s : String) : List String → List String
  | [] => [s]
  | t :: ts =>
    if s < t then s :: t :: ts
    else if s = t then t :: ts
    else t :: insertSortedDedup s ts

/-- Sorted duplicate-free list of the given strings. -/
def sortedDedupStr (l : List String) : List String :=
  l.foldr insertSortedDedup []

/-- `ProcessElektra.group_by` (with the default `default=None`): symbols
lacking the attribute are dropped; the groups appear in ascending key order
and each group lists its members in original order (Python sort is
stable). -/
def group_by (key : Symbol → Option String) (l : List Symbol) :
    List (String × List Symbol) :=
  (sortedDedupStr (l.filterMap key)).map
    (fun k => (k, l.filter (fun s => key s == some k)))

/-- The dummy `Device(label=label, space="")` injected for a labelled
skeleton slot. -/
def mkDummyDevice (label : String) : Symbol :=
  { variant := .Device, label := some label, space := some "" }

/-- Append symbols under a circuit key, creating the key at the end of the
dictionary when absent (`defaultdict(list)` extend). -/
def appendAt (m : List (String × List Symbol)) (k : String) (v : List Symbol) :
    List (String × List Symbol) :=
  match m with
  | [] => [(k, v)]
  | (k0, v0) :: rest =>
    if k0 = k then (k0, v0 ++ v) :: rest else (k0, v0) :: appendAt rest k v

/-- Touch a circuit key so it exists with an empty symbol list. -/
def ensureKey (m : List (String × List Symbol)) (k : String) :
    List (String × List Symbol) :=
  if m.any (fun p => p.1 == k) then m else m ++ [(k, [])]

/-- Pre-populate the circuits dictionary from `CIRCUITS_PER_DIST`. -/
def skeletonInit (dist : String) : List (String × List Symbol) :=
  ((CIRCUITS_PER_DIST.lookup dist).getD []).foldl
    (fun m e =>
      match e with
      | .labeled slot lbl => appendAt m slot [mkDummyDevice lbl]
      | .plain slot => ensureKey m slot)
    []

/-- The circuits dictionary for one distribution box: skeleton entries,
then the grouped symbols, dropping `NC` and `?`-marked circuits. -/
def circuitsFor (dist : String) (per_dist : List Symbol) :
    List (String × List Symbol) :=
  (group_by (fun s => s.circuit) per_dist).foldl
    (fun m g =>
      if g.1 = "NC" ∨ g.1.data.contains '?' then m
      else appendAt m g.1 g.2)
    (skeletonInit dist)

/-- The rows of one distribution-box table, natural-sorted on the circuit
key with leading `K` markers stripped for comparison only. -/
def circuitRows (dist : String) (per_dist : List Symbol) :
    Option (List (String × String)) :=
  let sorted := pySortOn chunksLt (fun item => natChunks (lstripK item.1))
    (circuitsFor dist per_dist)
  sorted.foldl
    (fun acc item => acc.bind (fun rows =>
      (symbols_description item.2 false false).map
        (fun d => rows ++ [(item.1, d)])))
    (some [])

/-- `ProcessElektra.circuit_tables`: one `(dist, rows)` table per
distribution box that owns at least one resolved symbol. -/
def circuit_tables (symbols : List Symbol) :
    Option (List (String × List (String × String))) :=
  (group_by (fun s => some s.dist) symbols).foldl
    (fun acc g => acc.bind (fun ts =>
      (circuitRows g.1 g.2).map (fun rows => ts ++ [(g.1, rows)])))
    (some [])

/-- The cardinality validation of one switch group (the `elif` chain of
`switches_table`). -/
def group_cardinality_diags (group : String) (switches : List Symbol) :
    List Diag :=
  match switches with
  | [] => [.switchGroupWithoutSwitches group]
  | s1 :: rest =>
    let p1 := s1.pair.getD false
    match rest with
    | [] => if p1 then [.onlyOneSwitchInPair group] else []
    | [s2] =>
      let p2 := s2.pair.getD false
      if p1 ≠ p2 then [.mixedPairAndSingle group]
      else if ¬ p1 then [.tooManySwitches group]
      else []
    | _ :: _ :: _ => [.tooManySwitches group]

/-- One switch group of `switches_table`: partition into switches and
others, validate cardinality, and append the row (switches listed before
the other symbols in the description input). A crashed description poisons
the row accumulator but keeps the diagnostics recorded so far. -/
def swStep (acc : Option (List (String × String)) × List Diag)
    (g : String × List Symbol) :
    Option (List (String × String)) × List Diag :=
  match acc.1 with
  | none => acc
  | some rows =>
    let sw := g.2.filter (fun s => s.variant == Variant.Switch)
    let others := g.2.filter (fun s => !(s.variant == Variant.Switch))
    let ds := acc.2 ++ group_cardinality_diags g.1 sw
    match symbols_description (sw ++ others) true true with
    | none => (none, ds)
    | some d => (some (rows ++ [(g.1, d)]), ds)

/-- The cardinality diagnostics of one group of `switches_table`. -/
def swDiagsOf (g : String × List Symbol) : List Diag :=
  group_cardinality_diags g.1 (g.2.filter (fun s => s.variant == Variant.Switch))

/-- `ProcessElektra.switches_table`: group by `global_switch_group`,
validate cardinality, and emit one row per group. The row component is
`none` when some description crashed; diagnostics recorded before the
crash are kept. -/
def switches_table (symbols : List Symbol) :
    Option (List (String × String)) × List Diag :=
  (group_by (fun s => s.global_switch_group) symbols).foldl swStep (some [], [])

/-!
### Tree traversal (`process_layer`, `process_obj`)

Document nodes carry their SVG `class` attribute and an object id; geometry
is abstracted into the oracles of `Env`. A `use` node carries its resolved
original inline (`none` when the href does not resolve, which is outside
the modelled well-formed documents) and a flag telling whether clone and
original live in the same layer (`layer_for_obj` comparison).
-/

/-- A document node below a layer. -/
inductive Node where
  | use (cls : Option String) (oid : Nat) (href : String)
      (original : Option Node) (sameLayer : Bool)
  | group (cls : Option String) (oid : Nat) (children : List Node)
  | text (cls : Option String) (oid : Nat) (content : String)
  | shape (cls : Option String) (oid : Nat) (pathLike : Bool)
deriving Repr

/-- The `class` attribute of a node. -/
def Node.cls : Node → Option String
  | .use c _ _ _ _ => c
  | .group c _ _ => c
  | .text c _ _ => c
  | .shape c _ _ => c

/-- The object id of a node. -/
def Node.oid : Node → Nat
  | .use _ i _ _ _ => i
  | .group _ i _ => i
  | .text _ i _ => i
  | .shape _ i _ => i

/-- Whether `add_contour` can derive a path from the node (it must be a
`PathElement` or `Rectangle`). -/
def Node.pathOk : Node → Bool
  | .shape _ _ p => p
  | _ => false

/-- Geometry and option oracles for a traversal run. `findSpace` abstracts
`SpaceNumbers.find_space` (floor, object) and `contains` abstracts the
point-in-polygon test of a registered dist contour (by source object id)
against the bounding-box center of an object (by id). -/
structure Env where
  markQuestions : Bool
  findSpace : String → Nat → Option String
  contains : Nat → Nat → Bool

/-- `ContourTracker.add_contour` for the dist-contour tracker: register the
polygon source, or warn when no path can be derived from the node. -/
def add_dist_contour (floor distTag : String) (node : Node) (st : PSt) : PSt :=
  if node.pathOk then
    { st with distContours := st.distContours ++ [(floor, node.oid, distTag)] }
  else st.warn (.unknownContourObject node.oid)

/-- `ContourTracker.find_contour` on the dist tracker: first registered
contour of the floor containing the center of the object. -/
def findDistContour (env : Env) (st : PSt) (floor : String) (oid : Nat) :
    Option String :=
  ((st.distContours.filter (fun t => t.1 == floor)).find?
    (fun t => env.contains t.2.1 oid)).map (fun t => t.2.2)

/-- The `class_to_attr` table of the grouping branch, as a context setter
selector. -/
inductive AttrKey where
  | circuit | switch_group | fixture_id | distbox_label | label | space
deriving DecidableEq, Repr

/-- Map a `class` attribute to the context key it sets. -/
def class_to_attr (cls : String) : Option AttrKey :=
  if cls = "elektra-groep" then some .circuit
  else if cls = "elektra-schakelaar" then some .switch_group
  else if cls = "elektra-armatuur" then some .fixture_id
  else if cls = "elektra-kast" then some .distbox_label
  else if cls = "elektra-label" then some .label
  else if cls = "elektra-ruimte" then some .space
  else none

/-- `attr in kwargs`: key presence in the context. -/
def Ctx.hasAttr (ctx : Ctx) : AttrKey → Bool
  | .circuit => ctx.circuit.isSome
  | .switch_group => ctx.switch_group.isSome
  | .fixture_id => ctx.fixture_id.isSome
  | .distbox_label => ctx.distbox_label.isSome
  | .label => ctx.label.isSome
  | .space => ctx.space.isSome

/-- `kwargs[attr]`, flattened to the stored string value (the `space` key
can hold `None`). Only meaningful when the key is present. -/
def Ctx.getAttr (ctx : Ctx) : AttrKey → Option String
  | .circuit => ctx.circuit
  | .switch_group => ctx.switch_group
  | .fixture_id => ctx.fixture_id
  | .distbox_label => ctx.distbox_label
  | .label => ctx.label
  | .space => ctx.space.getD none

/-- `kwargs[attr] = text`. -/
def Ctx.setAttr (ctx : Ctx) : AttrKey → String → Ctx
  | .circuit, t => { ctx with circuit := some t }
  | .switch_group, t => { ctx with switch_group := some t }
  | .fixture_id, t => { ctx with fixture_id := some t }
  | .distbox_label, t => { ctx with distbox_label := some t }
  | .label, t => { ctx with label := some t }
  | .space, t => { ctx with space := some (some t) }

/-- The text content seen by the grouping scan (`None` unless the child is
a `TextElement`). -/
def Node.textContent : Node → Option String
  | .text _ _ t => some t
  | _ => none

/-- Whether the grouping scan consumes this child as an attribute marker
(`if text and attr`): a text child with nonempty content whose class maps
to a context key. -/
def isMarker (n : Node) : Bool :=
  match n.textContent, n.cls.bind class_to_attr with
  | some t, some _ => t ≠ ""
  | _, _ => false

/-- One step of the grouping-branch scan over an immediate child: the
optional `Question` diagnostic, then either consume an attribute marker
(with a duplicate-attribute diagnostic if the key is already present) or
leave the child for the recursion pass. -/
def scanStep (env : Env) (acc : Ctx × PSt) (part : Node) : Ctx × PSt :=
  let ctx := acc.1
  let st := acc.2
  let text := part.textContent
  let hasQ := match text with
    | some t => t.data.contains '?'
    | none => false
  let st := if env.markQuestions && hasQ then st.warn (.question part.oid) else st
  match text, part.cls, part.cls.bind class_to_attr with
  | some t, some c, some a =>
    if t ≠ "" then
      let st := if ctx.hasAttr a then
          st.warn (.duplicateAttribute c (ctx.getAttr a) t)
        else st
      (ctx.setAttr a t, st)
    else (ctx, st)
  | _, _, _ => (ctx, st)

/-- The full scan over the immediate children of a grouping node. -/
def scanGroup (env : Env) (ctx : Ctx) (st : PSt) (children : List Node) :
    Ctx × PSt :=
  children.foldl (scanStep env) (ctx, st)

mutual

/-- `ProcessElektra.process_obj`. The grouping branch is embedded as the
scan pass over all immediate children followed by a recursion pass that
skips the children consumed as attribute markers (the source collects the
latter children in a `later` list during the scan; the two-pass order of
effects is identical). -/
def process_obj (env : Env) (ctx : Ctx) (st : PSt) : Node → PSt
  | .use cls oid href original sameLayer =>
    if cls = some "elektra-ignore" ∨ cls = some "elektra-notitie" then st
    else if cls = some "elektra-kastgebied" then
      let st := if ctx.sublayer ≠ none then st.warn (.distContourNotInRoot oid) else st
      add_dist_contour ctx.floor ctx.dist (.use cls oid href original sameLayer) st
    else
      -- resolve space and dist contour lazily, at most once per branch,
      -- from the position of the clone itself
      let sres : Ctx × PSt :=
        match ctx.space with
        | some _ => (ctx, st)
        | none =>
          let sp := env.findSpace ctx.floor oid
          let st := if sp = none then st.warn (.notInsideAnySpace oid) else st
          ({ ctx with space := some sp }, st)
      let ctx := sres.1
      let st := sres.2
      let ctx :=
        match ctx.contour_dist with
        | some _ => ctx
        | none => { ctx with contour_dist := some (findDistContour env st ctx.floor oid) }
      match SYMBOLS.lookup href with
      | some info => process_symbol info ctx st
      | none =>
        match original with
        | some orig =>
          if !sameLayer then st.warn (.cloneInDifferentLayer oid)
          else process_obj env ctx st orig
        | none => st
  | .group cls oid children =>
    if cls = some "elektra-ignore" ∨ cls = some "elektra-notitie" then st
    else if cls = some "elektra-kastgebied" then
      let st := if ctx.sublayer ≠ none then st.warn (.distContourNotInRoot oid) else st
      add_dist_contour ctx.floor ctx.dist (.group cls oid children) st
    else
      let scanned := scanGroup env ctx st children
      process_children env scanned.1 scanned.2 children
  | .text cls oid content =>
    if cls = some "elektra-ignore" ∨ cls = some "elektra-notitie" then st
    else if cls = some "elektra-kastgebied" then
      let st := if ctx.sublayer ≠ none then st.warn (.distContourNotInRoot oid) else st
      add_dist_contour ctx.floor ctx.dist (.text cls oid content) st
    else if content.data.contains '?' then st
    else if content = "" then st
    else st.warn (.unknownObject oid)
  | .shape cls oid pathLike =>
    if cls = some "elektra-ignore" ∨ cls = some "elektra-notitie" then st
    else if cls = some "elektra-kastgebied" then
      let st := if ctx.sublayer ≠ none then st.warn (.distContourNotInRoot oid) else st
      add_dist_contour ctx.floor ctx.dist (.shape cls oid pathLike) st
    else st.warn (.unknownObject oid)

/-- The recursion pass of the grouping branch: process the children that
were not consumed as attribute markers, left to right, under the fixed
scanned context. -/
def process_children (env : Env) (ctx : Ctx) (st : PSt) : List Node → PSt
  | [] => st
  | c :: cs =>
    process_children env ctx (if isMarker c then st else process_obj env ctx st c) cs

end

/-- `ProcessElektra.process_layer`: process every non-layer child of an
Elektra layer under the initial floor/dist/sublayer context. -/
def process_layer (env : Env) (floor dist : String) (sublayer : Option String)
    (st : PSt) (objs : List Node) : PSt :=
  objs.foldl
    (process_obj env { floor := floor, dist := dist, sublayer := sublayer })
    st

/-!
### Space numbering (`SpaceNumbers`)

Room contours are registered from the contour layers; the numbering layers
associate text labels with contours by containment. `number` is
`Option (Option String)`: the outer layer is attribute presence
(`hasattr(contour, "number")`), the inner layer is the stored value.
-/

/-- A registered room contour (polygon abstracted by the oracle). -/
structure RContour where
  oid : Nat
  number : Option (Option String) := none
deriving DecidableEq, Repr

/-- Containment oracle for room contours: contour source object id,
candidate object id. -/
structure NumEnv where
  containsR : Nat → Nat → Bool

/-- An object found in a numbering layer. -/
inductive NumObj where
  | text (oid : Nat) (content : String)
  | other (oid : Nat)
deriving DecidableEq, Repr

/-- `find_contour` then the duplicate-number check of
`process_number_layer`, updating the first containing contour of the
floor: a second, different label on the same contour is a diagnostic and
the first-seen number wins. -/
def assignNumber (env : NumEnv) (floor : String) (oid : Nat) (content : String) :
    List (String × RContour) → List (String × RContour) × Option Diag
  | [] => ([], none)
  | (fl, c) :: rest =>
    if fl = floor ∧ env.containsR c.oid oid then
      match c.number with
      | some old =>
        if old ≠ some content then
          ((fl, c) :: rest, some (.duplicateSpaceNumber oid old content))
        else ((fl, c) :: rest, none)
      | none => ((fl, { c with number := some (some content) }) :: rest, none)
    else
      let r := assignNumber env floor oid content rest
      ((fl, c) :: r.1, r.2)

/-- One numbering-layer object: text labels are associated to contours,
anything else is a diagnostic. -/
def numberStep (env : NumEnv) (floor : String)
    (acc : List (String × RContour) × List Diag) (o : NumObj) :
    List (String × RContour) × List Diag :=
  match o with
  | .other oid => (acc.1, acc.2 ++ [.unknownObjectInNumberLayer oid])
  | .text oid content =>
    let r := assignNumber env floor oid content acc.1
    (r.1, acc.2 ++ r.2.toList)

/-- Process all numbering layers over the registered contours. -/
def resolveNumbers (env : NumEnv) (contours : List (String × RContour))
    (layers : List (String × List NumObj)) :
    List (String × RContour) × List Diag :=
  layers.foldl (fun acc l => l.2.foldl (numberStep env l.1) acc) (contours, [])

/-- The final pass of `SpaceNumbers.find_spaces`: every contour still
without a `number` attribute is reported and defaulted to the explicit
`None` marker. -/
def finalizeContours (cs : List (String × RContour)) :
    List (String × RContour) × List Diag :=
  (cs.map (fun p => if p.2.number = none then
      (p.1, { p.2 with number := some none }) else p),
   cs.filterMap (fun p => if p.2.number = none then
      some (.contourWithoutNumber p.2.oid) else none))

/-- The numbering part of `SpaceNumbers.find_spaces` (contour registration
is the geometry plumbing that supplies `contours`). -/
def find_spaces_numbers (env : NumEnv) (contours : List (String × RContour))
    (layers : List (String × List NumObj)) :
    List (String × RContour) × List Diag :=
  let r := resolveNumbers env contours layers
  let f := finalizeContours r.1
  (f.1, r.2 ++ f.2)

/-!
### Characterization helpers

Closed forms for the values and appended diagnostics of the
`process_symbol` stages, and counting helpers for the tally buckets. These
are proved equal to the embedded stages below and are used to state and
prove the claims.
-/

/-- The empty run state. -/
def pst0 : PSt := {}

/-- Diagnostics appended by the sub-layer validation. -/
def sublayerDiags (info : SymInfo) (ctx : Ctx) : List Diag :=
  if (sublayersOf info.cls).contains ctx.sublayer then []
  else [.wrongSublayer ctx.sublayer info.cls]

/-- The stored circuit value produced by the circuit block. -/
def circuitResult (ctx : Ctx) : Option String :=
  match ctx.circuit with
  | none => none
  | some c =>
    if c = "" then some c
    else if (pyMatchCircuit c).1 ≠ "" ∧ (pyMatchCircuit c).1 ≠ ctx.dist then some c
    else some (pyMatchCircuit c).2

/-- Diagnostics appended by the circuit block. -/
def circuitDiags (ctx : Ctx) : List Diag :=
  match ctx.circuit with
  | none => []
  | some c =>
    if c = "" then []
    else
      (if (pyMatchCircuit c).1 = "" ∧ ctx.contour_dist.getD none ≠ some ctx.dist then
        [.symbolOutsideDistContour c ctx.dist (ctx.contour_dist.getD none)] else [])
      ++ (if (pyMatchCircuit c).1 ≠ "" ∧ (pyMatchCircuit c).1 ≠ ctx.dist then
        [.distMismatch c ctx.dist] else [])

/-- The local fixture-id value feeding the `FIXTURES` lookup. -/
def fixtureIdLocal (info : SymInfo) (ctx : Ctx) : Option String :=
  let fid1 := if info.cls = Variant.Fixture ∧ (ctx.fixture_id = none ∨ ctx.fixture_id = some "")
    then some "Z" else ctx.fixture_id
  if fid1 = some "?" then some "Z" else fid1

/-- Diagnostics appended by the fixture-id defaulting. -/
def fixtureIdDiags (info : SymInfo) (ctx : Ctx) : List Diag :=
  if info.cls = Variant.Fixture ∧ (ctx.fixture_id = none ∨ ctx.fixture_id = some "") then
    [.missingFixtureType]
  else []

/-- The `fixture` attribute value produced by the table lookup. -/
def lookupResultOf (fid : Option String) : Option FixtureInfo :=
  match fid with
  | none => none
  | some f => if f = "" then none else FIXTURES.lookup f

/-- Diagnostics appended by the table lookup. -/
def lookupDiagsOf (fid : Option String) : List Diag :=
  match fid with
  | none => []
  | some f =>
    if f = "" then []
    else
      match FIXTURES.lookup f with
      | some _ => []
      | none => [.unknownFixtureType f]

/-- The resolved fixture metadata of a processed symbol. -/
def fixtureResolved (info : SymInfo) (ctx : Ctx) : Option FixtureInfo :=
  lookupResultOf (fixtureIdLocal info ctx)

/-- All fixture-related diagnostics of one `process_symbol` call. -/
def fixtureDiags (info : SymInfo) (ctx : Ctx) : List Diag :=
  fixtureIdDiags info ctx ++ lookupDiagsOf (fixtureIdLocal info ctx)

/-- Whether a diagnostic is one of the two fixture-resolution ones. -/
def isFixtureDiag : Diag → Bool
  | .missingFixtureType => true
  | .unknownFixtureType _ => true
  | _ => false

/-- The sentinel `Z` entry of the `FIXTURES` table. -/
def unknownFixture : FixtureInfo := ⟨none, "Overig/onbekend", 1, 0⟩

/-- The switch group a group-cardinality diagnostic talks about. -/
def diagGroup : Diag → Option String
  | .switchGroupWithoutSwitches g => some g
  | .onlyOneSwitchInPair g => some g
  | .mixedPairAndSingle g => some g
  | .tooManySwitches g => some g
  | _ => none

/-- Count lookup in a tally association list (`defaultdict` read). -/
def lookup0 {κ : Type} [DecidableEq κ] (m : List (κ × Nat)) (k : κ) : Nat :=
  match m with
  | [] => 0
  | (k0, v) :: rest => if k = k0 then v else lookup0 rest k

/-- Inner-map lookup in a nested tally association list. -/
def lookupL {κ : Type} {α : Type} [DecidableEq κ]
    (m : List (κ × List α)) (k : κ) : List α :=
  match m with
  | [] => []
  | (k0, v) :: rest => if k = k0 then v else lookupL rest k

/-- Count lookup in a nested tally association list. -/
def lookup20 {κ₁ κ₂ : Type} [DecidableEq κ₁] [DecidableEq κ₂]
    (m : List (κ₁ × List (κ₂ × Nat))) (k₁ : κ₁) (k₂ : κ₂) : Nat :=
  lookup0 (lookupL m k₁) k₂

/-- Per-symbol contribution to the sockets bucket at one space. -/
def sockC (s : Symbol) (sp : String) : Nat :=
  match descAct s with
  | some (.bumpSockets sp0 n) => if sp = sp0 then n else 0
  | _ => 0

/-- Per-symbol contribution to the emergency-fixtures bucket. -/
def efixC (s : Symbol) (sp : String) : Nat :=
  match descAct s with
  | some (.bumpEfix sp0) => if sp = sp0 then 1 else 0
  | _ => 0

/-- Per-symbol contribution to the fixture-connections bucket. -/
def fcC (s : Symbol) (sp : String) : Nat :=
  match descAct s with
  | some (.bumpFC sp0) => if sp = sp0 then 1 else 0
  | _ => 0

/-- Per-symbol contribution to the switches bucket. -/
def swC (s : Symbol) (sp : String) : Nat :=
  match descAct s with
  | some (.bumpSwitch sp0) => if sp = sp0 then 1 else 0
  | _ => 0

/-- Per-symbol contribution to the fixtures bucket at a space and power. -/
def fixC (s : Symbol) (sp : String) (pw : Nat) : Nat :=
  match descAct s with
  | some (.bumpFix sp0 pw0 cnt) => if sp = sp0 ∧ pw = pw0 then cnt else 0
  | _ => 0

/-- Per-symbol contribution to the labels bucket at a label and space. -/
def lblC (s : Symbol) (lb sp : String) : Nat :=
  match descAct s with
  | some (.bumpLabel lb0 sp0) => if lb = lb0 ∧ sp = sp0 then 1 else 0
  | _ => 0

/-!
### Concrete fixtures for the claim theorems and their witnesses
-/

/-- The `wcd-1` registry entry. -/
def outletInfo : SymInfo := { cls := .Outlet, symbol := "WCD enkel", sockets := some 1 }

/-- The `schakelaar-wissel` registry entry (a pair-type switch). -/
def switchPairInfo : SymInfo :=
  { cls := .Switch, symbol := "Hotelschakelaar", pair := some true }

/-- The `lamp-algemeen` registry entry. -/
def lampInfo : SymInfo := { cls := .Fixture, symbol := "Lamp" }

/-- A context as produced for a symbol in space 12 under distribution box
L01, geometrically inside the L01 dist contour. -/
def ctxBase : Ctx :=
  { floor := "0", dist := "L01", sublayer := some "WCD_etc",
    space := some (some "12"), contour_dist := some (some "L01") }

/-- The mismatch scenario of C4: label prefix L02 under structural L01. -/
def ctxC4 : Ctx := { ctxBase with circuit := some "L02.5" }

/-- The fan-out scenario of C5. -/
def ctxC5 : Ctx := { ctxBase with switch_group := some "a+b" }

/-- The placeholder-fixture scenario of C8 (`Verlichting` sub-layer, so no
unrelated diagnostics occur either). -/
def ctxC8q : Ctx :=
  { floor := "0", dist := "L01", sublayer := some "Verlichting",
    space := some (some "12"), contour_dist := some (some "L01"),
    fixture_id := some "?" }

/-- The unknown-fixture scenario of C8. -/
def ctxC8u : Ctx := { ctxC8q with fixture_id := some "X9" }

/-- The missing-fixture scenario of C8. -/
def ctxC8m : Ctx := { ctxC8q with fixture_id := none }

/-- An environment with trivial geometry for traversal witnesses. -/
def envW : Env :=
  { markQuestions := false, findSpace := fun _ _ => none, contains := fun _ _ => false }

/-- An attribute-marker child: a text node with class `elektra-groep`. -/
def markerNode : Node := .text (some "elektra-groep") 100 "7"

/-- Two plain non-marker siblings. -/
def shapeA : Node := .shape none 101 false

/-- Second non-marker sibling. -/
def shapeB : Node := .shape none 102 false

/-- A layer-level context. -/
def ctxW : Ctx := { floor := "0", dist := "L01", sublayer := some "WCD_etc" }

/-- A context that already carries a circuit (for the duplicate-attribute
scenario). -/
def ctxWdup : Ctx := { ctxW with circuit := some "5" }

/-- Outlet symbols in spaces whose natural-sort keys collide (`01` versus
`1`), for the order-dependence counterexample. -/
def outlet01 : Symbol := { variant := .Outlet, space := some "01", sockets := some 1 }

/-- The colliding outlet in space `1`. -/
def outlet1 : Symbol := { variant := .Outlet, space := some "1", sockets := some 1 }

/-- A circuitless symbol resolved under the NV distribution box. -/
def nvSym : Symbol :=
  { variant := .Outlet, dist := "NV", space := some "12", sockets := some 1 }

/-- A lone pair-type switch in global switch group 12-a. -/
def pairSwitch : Symbol :=
  { variant := .Switch, space := some "12", global_switch_group := some "12-a",
    pair := some true }

/-- A numbering environment in which no contour contains anything. -/
def numEnvW : NumEnv := { containsR := fun _ _ => false }

/-- A room contour that never receives a number. -/
def contW : RContour := { oid := 7 }

/-!
## Helper lemmas
-/

theorem warn_diags (st : PSt) (d : Diag) : (st.warn d).diags = st.diags ++ [d] := rfl

theorem warn_symbols (st : PSt) (d : Diag) : (st.warn d).symbols = st.symbols := rfl

theorem sublayerStage_eq (info : SymInfo) (ctx : Ctx) (st : PSt) :
    sublayerStage info ctx st = { st with diags := st.diags ++ sublayerDiags info ctx } := by
  unfold sublayerStage sublayerDiags
  split <;> simp [PSt.warn]

theorem circuitStage_eq (ctx : Ctx) (st : PSt) :
    circuitStage ctx st =
      (circuitResult ctx, { st with diags := st.diags ++ circuitDiags ctx }) := by
  unfold circuitStage circuitResult circuitDiags
  cases hc : ctx.circuit with
  | none => simp
  | some c =>
    dsimp only
    split_ifs <;> simp_all [PSt.warn]

theorem fixtureIdStage_eq (info : SymInfo) (ctx : Ctx) (st : PSt) :
    fixtureIdStage info ctx st =
      (fixtureIdLocal info ctx, { st with diags := st.diags ++ fixtureIdDiags info ctx }) := by
  unfold fixtureIdStage fixtureIdLocal fixtureIdDiags
  by_cases hP : info.cls = Variant.Fixture ∧ (ctx.fixture_id = none ∨ ctx.fixture_id = some "")
  · simp only [if_pos hP]
    simp [PSt.warn]
  · simp only [if_neg hP]
    simp [PSt.warn]

theorem fixtureLookupStage_eq (fid : Option String) (st : PSt) :
    fixtureLookupStage fid st =
      (lookupResultOf fid, { st with diags := st.diags ++ lookupDiagsOf fid }) := by
  unfold fixtureLookupStage lookupResultOf lookupDiagsOf
  cases fid with
  | none => simp
  | some f =>
    by_cases h : f = ""
    · simp [h]
    · cases hL : FIXTURES.lookup f <;> simp [h, hL, PSt.warn]

theorem process_symbol_eq (info : SymInfo) (ctx : Ctx) (st : PSt) :
    process_symbol info ctx st =
      { st with
        diags := st.diags ++ sublayerDiags info ctx ++ circuitDiags ctx ++ fixtureDiags info ctx,
        symbols := st.symbols ++
          fanoutSyms (symbolBase info ctx (circuitResult ctx) (fixtureResolved info ctx))
            (pyStr (ctx.space.getD none)) ctx.switch_group } := by
  simp only [process_symbol, sublayerStage_eq, circuitStage_eq, fixtureIdStage_eq,
    fixtureLookupStage_eq, fixtureDiags, fixtureResolved]
  simp [List.append_assoc]

theorem fanout_fold_mem (base : Symbol) (sp : String) (toks : List String) :
    ∀ acc : List Symbol × Option String, ∀ s ∈ (toks.foldl (fanoutStep base sp) acc).1,
      s ∈ acc.1 ∨ ∃ g, s = { base with global_switch_group := g } := by
  induction toks with
  | nil => intro acc s hs; exact Or.inl hs
  | cons t ts ih =>
    intro acc s hs
    rw [List.foldl_cons] at hs
    rcases ih _ s hs with h | h
    · unfold fanoutStep at h
      rcases List.mem_append.1 h with h | h
      · exact Or.inl h
      · simp only [List.mem_singleton] at h
        exact Or.inr ⟨_, h⟩
    · exact Or.inr h

theorem fanout_mem {base : Symbol} {sp : String} {sg : Option String} {s : Symbol}
    (h : s ∈ fanoutSyms base sp sg) :
    ∃ g, s = { base with global_switch_group := g } := by
  unfold fanoutSyms at h
  rcases fanout_fold_mem base sp _ _ s h with h | h
  · simp at h
  · exact h

theorem fanout_fold_map (base : Symbol) (sp : String) :
    ∀ toks : List String, (∀ t ∈ toks, t ≠ "") →
      ∀ acc : List Symbol × Option String,
        ((toks.foldl (fanoutStep base sp) acc).1).map (fun s => s.global_switch_group) =
          acc.1.map (fun s => s.global_switch_group) ++
            toks.map (fun t =>
              some (if LOCAL_SWITCHES.contains t then sp ++ "-" ++ t else t)) := by
  intro toks
  induction toks with
  | nil => intro _ acc; simp
  | cons t ts ih =>
    intro h acc
    rw [List.foldl_cons, ih (fun x hx => h x (List.mem_cons_of_mem _ hx))]
    unfold fanoutStep
    simp [h t (List.mem_cons_self _ _)]

theorem sublayerDiags_no_fixture (info : SymInfo) (ctx : Ctx) :
    (sublayerDiags info ctx).filter isFixtureDiag = [] := by
  unfold sublayerDiags
  split <;> rfl

theorem circuitDiags_no_fixture (ctx : Ctx) :
    (circuitDiags ctx).filter isFixtureDiag = [] := by
  unfold circuitDiags
  cases ctx.circuit with
  | none => rfl
  | some c =>
    dsimp only
    split_ifs <;> rfl

/-!
## Claim theorems
-/

/-- C1: the circuit label `L01.2` under structural dist `L01` parses to
prefix `L01` and designator `2` and the stored circuit becomes `2`; the
bare label `2` with resolved dist contour `L01` parses with no prefix and
designator `2` and emits no diagnostic; the same bare label with a
different resolved dist contour emits a diagnostic. -/
theorem c1_circuit_label_cases :
    pyMatchCircuit "L01.2" = ("L01", "2") ∧
    (process_symbol outletInfo { ctxBase with circuit := some "L01.2" } pst0).symbols.map
      (fun s => s.circuit) = [some "2"] ∧
    (process_symbol outletInfo { ctxBase with circuit := some "L01.2" } pst0).diags = [] ∧
    pyMatchCircuit "2" = ("", "2") ∧
    (process_symbol outletInfo { ctxBase with circuit := some "2" } pst0).symbols.map
      (fun s => s.circuit) = [some "2"] ∧
    (process_symbol outletInfo { ctxBase with circuit := some "2" } pst0).diags = [] ∧
    (process_symbol outletInfo
        { ctxBase with circuit := some "2", contour_dist := some (some "L02") } pst0).diags =
      [.symbolOutsideDistContour "2" "L01" (some "L02")] := by
  decide

/-- C4: when the explicit distribution-box prefix of a circuit label
disagrees with the structural distribution box, a diagnostic is emitted and
the symbol keeps the original full label as its circuit and stays assigned
to the structural distribution box. -/
theorem c4_prefix_mismatch_keeps_label (info : SymInfo) (ctx : Ctx) (c : String)
    (hc : ctx.circuit = some c) (hne : c ≠ "")
    (hld : (pyMatchCircuit c).1 ≠ "") (hmm : (pyMatchCircuit c).1 ≠ ctx.dist) :
    (∀ s ∈ (process_symbol info ctx pst0).symbols,
      s.circuit = some c ∧ s.dist = ctx.dist) ∧
    Diag.distMismatch c ctx.dist ∈ (process_symbol info ctx pst0).diags := by
  rw [process_symbol_eq]
  have hcr : circuitResult ctx = some c := by
    simp [circuitResult, hc, hne, hld, hmm]
  have hcd : Diag.distMismatch c ctx.dist ∈ circuitDiags ctx := by
    simp [circuitDiags, hc, hne, hld, hmm]
  constructor
  · intro s hs
    simp only [pst0, List.nil_append] at hs
    rcases fanout_mem hs with ⟨g, rfl⟩
    exact ⟨by simp [symbolBase, hcr], by simp [symbolBase]⟩
  · simp only [pst0, List.nil_append, List.mem_append]
    exact Or.inl (Or.inr hcd)

/-- C4 witness: the mismatch scenario `L02.5` under structural `L01`. -/
theorem c4_witness :
    Diag.distMismatch "L02.5" "L01" ∈ (process_symbol outletInfo ctxC4 pst0).diags :=
  (c4_prefix_mismatch_keeps_label outletInfo ctxC4 "L02.5" rfl (by decide) (by decide)
    (by decide)).2

/-- C5: symbol instantiation appends one symbol per `+`-separated
switch-group token; tokens from the local set `{a, b, c, d}` are namespaced
by the current space and all other tokens become the global key directly
(stated for labels whose tokens are all nonempty). -/
theorem c5_switch_group_fanout (info : SymInfo) (ctx : Ctx) (sgs : String)
    (hsg : ctx.switch_group = some sgs)
    (hne : ∀ t ∈ pySplitPlus sgs, t ≠ "") :
    (process_symbol info ctx pst0).symbols.map (fun s => s.global_switch_group) =
      (pySplitPlus sgs).map (fun t =>
        some (if LOCAL_SWITCHES.contains t then
          pyStr (ctx.space.getD none) ++ "-" ++ t else t)) ∧
    (process_symbol info ctx pst0).symbols.length = (pySplitPlus sgs).length := by
  rw [process_symbol_eq]
  have hmap :
      (fanoutSyms (symbolBase info ctx (circuitResult ctx) (fixtureResolved info ctx))
        (pyStr (ctx.space.getD none)) ctx.switch_group).map
          (fun s => s.global_switch_group) =
      (pySplitPlus sgs).map (fun t =>
        some (if LOCAL_SWITCHES.contains t then
          pyStr (ctx.space.getD none) ++ "-" ++ t else t)) := by
    unfold fanoutSyms
    rw [hsg]
    simpa using fanout_fold_map _ _ (pySplitPlus sgs) hne ([], none)
  constructor
  · simpa [pst0] using hmap
  · have := congrArg List.length hmap
    simpa [pst0] using this

/-- C5 witness: switch group `a+b` in space `12` yields exactly the two
global keys `12-a` and `12-b`. -/
theorem c5_witness :
    (process_symbol switchPairInfo ctxC5 pst0).symbols.map
      (fun s => s.global_switch_group) = [some "12-a", some "12-b"] ∧
    (process_symbol switchPairInfo ctxC5 pst0).symbols.length = 2 := by
  have h := c5_switch_group_fanout switchPairInfo ctxC5 "a+b" rfl (by decide)
  exact ⟨h.1.trans (by decide), h.2.trans (by decide)⟩

/-- C8 counterexample: the placeholder fixture id `?` on a Fixture symbol
is mapped to the sentinel entry with no diagnostic at all, contradicting
the claim that a diagnostic accompanies every placeholder default. -/
theorem c8_counterexample :
    (process_symbol lampInfo ctxC8q pst0).diags = [] ∧
    (process_symbol lampInfo ctxC8q pst0).symbols.map (fun s => s.fixture) =
      [some unknownFixture] := by
  decide

/-- C8 amended: the placeholder id `?` is mapped to the sentinel silently;
an id absent from the table emits a diagnostic and leaves the fixture
metadata unset; a Fixture with no (or an empty) id emits a diagnostic and
receives the sentinel. -/
theorem c8_fixture_resolution (info : SymInfo) (ctx : Ctx) :
    (ctx.fixture_id = some "?" →
      (process_symbol info ctx pst0).diags.filter isFixtureDiag = [] ∧
      ∀ s ∈ (process_symbol info ctx pst0).symbols, s.fixture = some unknownFixture) ∧
    (∀ u, ctx.fixture_id = some u → u ≠ "?" → u ≠ "" → FIXTURES.lookup u = none →
      Diag.unknownFixtureType u ∈ (process_symbol info ctx pst0).diags ∧
      ∀ s ∈ (process_symbol info ctx pst0).symbols, s.fixture = none) ∧
    (info.cls = Variant.Fixture → ctx.fixture_id = none ∨ ctx.fixture_id = some "" →
      Diag.missingFixtureType ∈ (process_symbol info ctx pst0).diags ∧
      ∀ s ∈ (process_symbol info ctx pst0).symbols, s.fixture = some unknownFixture) := by
  refine ⟨?_, ?_, ?_⟩
  · intro hq
    have hloc : fixtureIdLocal info ctx = some "Z" := by
      simp [fixtureIdLocal, hq]
    constructor
    · rw [process_symbol_eq]
      simp only [pst0, List.nil_append, List.filter_append]
      rw [sublayerDiags_no_fixture, circuitDiags_no_fixture]
      have hZ : FIXTURES.lookup "Z" = some unknownFixture := rfl
      simp [fixtureDiags, fixtureIdDiags, hq, hloc, lookupDiagsOf, hZ]
    · intro s hs
      rw [process_symbol_eq] at hs
      simp only [pst0, List.nil_append] at hs
      rcases fanout_mem hs with ⟨g, rfl⟩
      simp [symbolBase, fixtureResolved, hloc, lookupResultOf]
      decide
  · intro u hu h1 h2 h3
    have hloc : fixtureIdLocal info ctx = some u := by
      simp [fixtureIdLocal, hu, h1, h2]
    constructor
    · rw [process_symbol_eq]
      simp only [pst0, List.nil_append, List.mem_append]
      refine Or.inr ?_
      simp [fixtureDiags, lookupDiagsOf, hloc, h2, h3]
    · intro s hs
      rw [process_symbol_eq] at hs
      simp only [pst0, List.nil_append] at hs
      rcases fanout_mem hs with ⟨g, rfl⟩
      simp [symbolBase, fixtureResolved, hloc, lookupResultOf, h2, h3]
  · intro hf hm
    have hloc : fixtureIdLocal info ctx = some "Z" := by
      rcases hm with hm | hm <;> simp [fixtureIdLocal, hf, hm]
    constructor
    · rw [process_symbol_eq]
      simp only [pst0, List.nil_append, List.mem_append]
      refine Or.inr ?_
      simp [fixtureDiags, fixtureIdDiags, hf]
      rcases hm with hm | hm <;> simp [hm]
    · intro s hs
      rw [process_symbol_eq] at hs
      simp only [pst0, List.nil_append] at hs
      rcases fanout_mem hs with ⟨g, rfl⟩
      simp [symbolBase, fixtureResolved, hloc, lookupResultOf]
      decide

theorem scanStep_nonmarker (env : Env) (acc : Ctx × PSt) (c : Node)
    (hq : env.markQuestions = false) (hm : isMarker c = false) :
    scanStep env acc c = acc := by
  rcases acc with ⟨ctx, st⟩
  unfold scanStep
  unfold isMarker at hm
  rw [hq]
  cases ht : c.textContent with
  | none =>
    cases hc : c.cls with
    | none => simp [ht, hc]
    | some cl => cases ha : class_to_attr cl <;> simp [ht, hc, ha]
  | some t =>
    cases hc : c.cls with
    | none => simp [ht, hc]
    | some cl =>
      cases ha : class_to_attr cl with
      | none => simp [ht, hc, ha]
      | some a =>
        rw [ht, hc] at hm
        simp [ha] at hm
        simp [ht, hc, ha, hm]

theorem scanGroup_append (env : Env) (ctx : Ctx) (st : PSt) (l1 l2 : List Node) :
    scanGroup env ctx st (l1 ++ l2) =
      scanGroup env (scanGroup env ctx st l1).1 (scanGroup env ctx st l1).2 l2 := by
  unfold scanGroup
  rw [List.foldl_append]

theorem scanGroup_nonmarkers (env : Env) (ctx : Ctx) (st : PSt) (l : List Node)
    (hq : env.markQuestions = false) (h : ∀ c ∈ l, isMarker c = false) :
    scanGroup env ctx st l = (ctx, st) := by
  induction l with
  | nil => rfl
  | cons c cs ih =>
    unfold scanGroup at ih ⊢
    rw [List.foldl_cons, scanStep_nonmarker env _ c hq (h c (List.mem_cons_self _ _))]
    exact ih (fun x hx => h x (List.mem_cons_of_mem _ hx))

theorem process_children_markers (env : Env) (ctx : Ctx) (st : PSt) (ms : List Node)
    (h : ∀ m ∈ ms, isMarker m = true) (rest : List Node) :
    process_children env ctx st (ms ++ rest) = process_children env ctx st rest := by
  induction ms with
  | nil => rfl
  | cons m ms ih =>
    rw [List.cons_append]
    rw [process_children]
    rw [h m (List.mem_cons_self _ _)]
    simp only [if_true]
    exact ih (fun x hx => h x (List.mem_cons_of_mem _ hx))

theorem process_children_pair (env : Env) (ctx : Ctx) (st : PSt) (a b : Node)
    (ha : isMarker a = false) (hb : isMarker b = false) :
    process_children env ctx st [a, b] =
      process_obj env ctx (process_obj env ctx st a) b := by
  simp [process_children, ha, hb]

theorem process_obj_group (env : Env) (ctx : Ctx) (st : PSt) (cls : Option String)
    (oid : Nat) (children : List Node)
    (h1 : cls ≠ some "elektra-ignore") (h2 : cls ≠ some "elektra-notitie")
    (h3 : cls ≠ some "elektra-kastgebied") :
    process_obj env ctx st (.group cls oid children) =
      process_children env (scanGroup env ctx st children).1
        (scanGroup env ctx st children).2 children := by
  rw [process_obj]
  simp [h1, h2, h3]

/-- C2: sibling isolation of the traversal context. For a grouping node
whose attribute markers are `ms`, every remaining child is dispatched with
exactly the context scanned from the parent context and the markers of the
group itself; what a sibling (`a`, universally quantified, arbitrary
subtree) does while being processed cannot change the context the next
sibling (`b`) receives. -/
theorem c2_sibling_context_isolation (env : Env) (ctx : Ctx) (st : PSt)
    (cls : Option String) (oid : Nat) (ms : List Node) (a b : Node)
    (hq : env.markQuestions = false)
    (hms : ∀ m ∈ ms, isMarker m = true)
    (ha : isMarker a = false) (hb : isMarker b = false)
    (h1 : cls ≠ some "elektra-ignore") (h2 : cls ≠ some "elektra-notitie")
    (h3 : cls ≠ some "elektra-kastgebied") :
    process_obj env ctx st (.group cls oid (ms ++ [a, b])) =
      process_obj env (scanGroup env ctx st ms).1
        (process_obj env (scanGroup env ctx st ms).1
          (scanGroup env ctx st ms).2 a) b := by
  rw [process_obj_group env ctx st cls oid _ h1 h2 h3]
  have hscan : scanGroup env ctx st (ms ++ [a, b]) = scanGroup env ctx st ms := by
    rw [scanGroup_append]
    rw [scanGroup_nonmarkers env _ _ [a, b] hq ?_]
    · intro c hc
      rcases List.mem_pair.1 hc with rfl | rfl
      · exact ha
      · exact hb
  rw [hscan]
  rw [process_children_markers env _ _ ms hms [a, b]]
  exact process_children_pair env _ _ a b ha hb

/-- C2 witness: a concrete group with one circuit marker and two plain
siblings. -/
theorem c2_witness :
    process_obj envW ctxW pst0 (.group none 1 ([markerNode] ++ [shapeA, shapeB])) =
      process_obj envW (scanGroup envW ctxW pst0 [markerNode]).1
        (process_obj envW (scanGroup envW ctxW pst0 [markerNode]).1
          (scanGroup envW ctxW pst0 [markerNode]).2 shapeA) shapeB :=
  c2_sibling_context_isolation envW ctxW pst0 none 1 [markerNode] shapeA shapeB rfl
    (by intro m hm; rw [List.mem_singleton] at hm; subst hm; decide)
    (by decide) (by decide) (by decide) (by decide) (by decide)

/-- C10: an attribute marker that sets a context key already present
(inherited or set earlier) emits a duplicate-attribute diagnostic, and the
new text value nevertheless replaces the old one: the following sibling is
processed with the later value. -/
theorem c10_duplicate_attribute_overwrites (env : Env) (ctx : Ctx) (st : PSt)
    (cls : Option String) (oid tid : Nat) (gcls t : String) (a : AttrKey) (b : Node)
    (hq : env.markQuestions = false)
    (hattr : class_to_attr gcls = some a)
    (hpres : ctx.hasAttr a = true) (ht : t ≠ "")
    (hb : isMarker b = false)
    (h1 : cls ≠ some "elektra-ignore") (h2 : cls ≠ some "elektra-notitie")
    (h3 : cls ≠ some "elektra-kastgebied") :
    process_obj env ctx st (.group cls oid [.text (some gcls) tid t, b]) =
      process_obj env (ctx.setAttr a t)
        (st.warn (.duplicateAttribute gcls (ctx.getAttr a) t)) b := by
  have hm : isMarker (.text (some gcls) tid t) = true := by
    simp [isMarker, Node.textContent, Node.cls, hattr, ht]
  have hstep : scanStep env (ctx, st) (.text (some gcls) tid t) =
      (ctx.setAttr a t, st.warn (.duplicateAttribute gcls (ctx.getAttr a) t)) := by
    unfold scanStep
    simp [Node.textContent, Node.cls, hattr, hq, ht, hpres]
  rw [process_obj_group env ctx st cls oid _ h1 h2 h3]
  have hscan : scanGroup env ctx st [.text (some gcls) tid t, b] =
      (ctx.setAttr a t, st.warn (.duplicateAttribute gcls (ctx.getAttr a) t)) := by
    unfold scanGroup
    rw [List.foldl_cons, hstep, List.foldl_cons, List.foldl_nil]
    exact scanStep_nonmarker env _ b hq hb
  rw [hscan]
  simp [process_children, hm, hb]

/-- C10 witness: the circuit key is inherited in `ctxWdup` and set again by
the marker; the sibling sees the new value `7`. -/
theorem c10_witness :
    process_obj envW ctxWdup pst0 (.group none 1 [markerNode, shapeB]) =
      process_obj envW (ctxWdup.setAttr .circuit "7")
        (pst0.warn (.duplicateAttribute "elektra-groep" (ctxWdup.getAttr .circuit) "7"))
        shapeB :=
  c10_duplicate_attribute_overwrites envW ctxWdup pst0 none 1 100 "elektra-groep" "7"
    .circuit shapeB rfl rfl rfl (by decide) (by decide) (by decide) (by decide) (by decide)

/-- C8 witness: the unknown id `X9` emits the diagnostic and leaves the
fixture unset; the missing id on a Fixture emits the diagnostic and gets
the sentinel. -/
theorem c8_witness :
    Diag.unknownFixtureType "X9" ∈ (process_symbol lampInfo ctxC8u pst0).diags ∧
    Diag.missingFixtureType ∈ (process_symbol lampInfo ctxC8m pst0).diags :=
  ⟨((c8_fixture_resolution lampInfo ctxC8u).2.1 "X9" rfl (by decide) (by decide)
      (by decide)).1,
   ((c8_fixture_resolution lampInfo ctxC8m).2.2 rfl (Or.inl rfl)).1⟩

/-- C9: after numbering resolution every contour carries the `number`
attribute; a contour left unassociated by the numbering layers is reported
with a diagnostic and defaulted to the explicit `None` marker, which
differs from every real room number and whose downstream string form
`"None"` is not the empty string. -/
theorem c9_unnumbered_contour_marker (env : NumEnv)
    (contours : List (String × RContour)) (layers : List (String × List NumObj)) :
    (∀ p ∈ (find_spaces_numbers env contours layers).1, p.2.number ≠ none) ∧
    (∀ p ∈ (resolveNumbers env contours layers).1, p.2.number = none →
      (p.1, { p.2 with number := some none }) ∈ (find_spaces_numbers env contours layers).1 ∧
      Diag.contourWithoutNumber p.2.oid ∈ (find_spaces_numbers env contours layers).2) ∧
    (∀ s : String, (none : Option String) ≠ some s) ∧
    pyStr none = "None" ∧ ("None" : String) ≠ "" := by
  refine ⟨?_, ?_, ?_, rfl, by decide⟩
  case refine_3 => intro s; simp
  · intro p hp
    simp only [find_spaces_numbers, finalizeContours] at hp
    rcases List.mem_map.1 hp with ⟨q, hq, rfl⟩
    by_cases h : q.2.number = none
    · simp [h]
    · simp [h]
  · intro p hp h
    constructor
    · simp only [find_spaces_numbers, finalizeContours]
      exact List.mem_map.2 ⟨p, hp, by simp [h]⟩
    · simp only [find_spaces_numbers, finalizeContours, List.mem_append]
      refine Or.inr (List.mem_filterMap.2 ⟨p, hp, ?_⟩)
      simp [h]

/-- C9 witness: one contour, no numbering layers. -/
theorem c9_witness :
    ("0", ({ oid := 7, number := some none } : RContour)) ∈
      (find_spaces_numbers numEnvW [("0", contW)] []).1 ∧
    Diag.contourWithoutNumber 7 ∈ (find_spaces_numbers numEnvW [("0", contW)] []).2 := by
  have h := (c9_unnumbered_contour_marker numEnvW [("0", contW)] []).2.1
    ("0", contW) (List.mem_singleton.2 rfl) rfl
  simpa [contW] using h

theorem filterMap_some_dist (l : List Symbol) :
    l.filterMap (fun s => some s.dist) = l.map (fun s => s.dist) := by
  induction l <;> simp_all [List.filterMap_cons]

theorem sortedDedupStr_const (k : String) :
    ∀ xs : List String, xs ≠ [] → (∀ x ∈ xs, x = k) → sortedDedupStr xs = [k] := by
  intro xs
  induction xs with
  | nil => intro h; exact absurd rfl h
  | cons x xs ih =>
    intro _ hall
    have hx : x = k := hall x (List.mem_cons_self _ _)
    subst hx
    unfold sortedDedupStr at ih ⊢
    rw [List.foldr_cons]
    by_cases hxs : xs = []
    · subst hxs
      simp [insertSortedDedup]
    · rw [ih hxs (fun y hy => hall y (List.mem_cons_of_mem _ hy))]
      simp [insertSortedDedup, lt_irrefl]

/-- C3 counterexample: with zero resolved symbols, circuit-table building
yields no table at all, although the NV distribution box is configured with
skeleton slots 1, 2, 3. -/
theorem c3_counterexample :
    circuit_tables [] = some [] ∧
    CIRCUITS_PER_DIST.lookup "NV" = some [.plain "1", .plain "2", .plain "3"] := by
  decide

/-- C3 amended: a distribution box with skeleton slots 1, 2, 3 yields a
table of exactly 3 rows with empty descriptions provided at least one
symbol (necessarily circuitless here) was resolved under the box; with zero
symbols the box gets no table (see the counterexample). -/
theorem c3_skeleton_rows (l : List Symbol) (hne : l ≠ [])
    (hd : ∀ s ∈ l, s.dist = "NV") (hc : ∀ s ∈ l, s.circuit = none) :
    circuit_tables l = some [("NV", [("1", ""), ("2", ""), ("3", "")])] := by
  have hgb : group_by (fun s => some s.dist) l = [("NV", l)] := by
    unfold group_by
    rw [filterMap_some_dist]
    rw [sortedDedupStr_const "NV" _ (by simpa using hne)
      (by intro x hx; rcases List.mem_map.1 hx with ⟨s, hs, rfl⟩; exact hd s hs)]
    have hfil : l.filter (fun s => some s.dist == some "NV") = l := by
      apply List.filter_eq_self.2
      intro s hs
      simp [hd s hs]
    rw [List.map_singleton, hfil]
  have hgc : group_by (fun s => s.circuit) l = [] := by
    unfold group_by
    have hnil : l.filterMap (fun s => s.circuit) = [] := by
      rw [List.filterMap_eq_nil_iff]
      exact hc
    rw [hnil]
    rfl
  have hcf : circuitsFor "NV" l = skeletonInit "NV" := by
    unfold circuitsFor
    rw [hgc]
    rfl
  have hrows : circuitRows "NV" l = some [("1", ""), ("2", ""), ("3", "")] := by
    unfold circuitRows
    rw [hcf]
    decide
  unfold circuit_tables
  rw [hgb]
  simp only [List.foldl_cons, List.foldl_nil, Option.bind_eq_bind, Option.some_bind]
  rw [hrows]
  rfl

/-- C3 witness: a single circuitless NV symbol. -/
theorem c3_witness :
    circuit_tables [nvSym] = some [("NV", [("1", ""), ("2", ""), ("3", "")])] :=
  c3_skeleton_rows [nvSym] (by decide)
    (by intro s hs; rw [List.mem_singleton] at hs; subst hs; rfl)
    (by intro s hs; rw [List.mem_singleton] at hs; subst hs; rfl)

theorem insertSortedDedup_mem (s : String) (l : List String) (a : String) :
    a ∈ insertSortedDedup s l ↔ a = s ∨ a ∈ l := by
  induction l with
  | nil => simp [insertSortedDedup]
  | cons t ts ih =>
    unfold insertSortedDedup
    split_ifs with h1 h2
    · simp
    · subst h2
      simp [or_comm, or_assoc]
    · simp only [List.mem_cons, ih]
      tauto

theorem insertSortedDedup_sorted (s : String) (l : List String)
    (h : l.Sorted (· < ·)) : (insertSortedDedup s l).Sorted (· < ·) := by
  induction l with
  | nil => simp [insertSortedDedup]
  | cons t ts ih =>
    rw [List.sorted_cons] at h
    unfold insertSortedDedup
    split_ifs with h1 h2
    · rw [List.sorted_cons]
      refine ⟨?_, List.sorted_cons.2 h⟩
      intro b hb
      rcases List.mem_cons.1 hb with rfl | hb
      · exact h1
      · exact lt_trans h1 (h.1 b hb)
    · exact List.sorted_cons.2 h
    · rw [List.sorted_cons]
      refine ⟨?_, ih h.2⟩
      intro b hb
      rcases (insertSortedDedup_mem s ts b).1 hb with rfl | hb
      · rcases lt_trichotomy b t with hlt | heq | hgt
        · exact absurd hlt h1
        · exact absurd heq h2
        · exact hgt
      · exact h.1 b hb

theorem sortedDedupStr_sorted (l : List String) :
    (sortedDedupStr l).Sorted (· < ·) := by
  induction l with
  | nil => simp [sortedDedupStr]
  | cons x xs ih =>
    unfold sortedDedupStr at ih ⊢
    rw [List.foldr_cons]
    exact insertSortedDedup_sorted x _ ih

theorem sortedDedupStr_nodup (l : List String) : (sortedDedupStr l).Nodup :=
  (sortedDedupStr_sorted l).nodup

theorem sortedDedupStr_mem (l : List String) (a : String) :
    a ∈ sortedDedupStr l ↔ a ∈ l := by
  induction l with
  | nil => simp [sortedDedupStr]
  | cons x xs ih =>
    unfold sortedDedupStr at ih ⊢
    rw [List.foldr_cons, insertSortedDedup_mem]
    simp [ih]

theorem group_by_keys (key : Symbol → Option String) (l : List Symbol) :
    (group_by key l).map Prod.fst = sortedDedupStr (l.filterMap key) := by
  unfold group_by
  rw [List.map_map]
  simp [Function.comp_def]

theorem swDiagsOf_tag (gm : String × List Symbol) :
    ∀ d ∈ swDiagsOf gm, diagGroup d = some gm.1 := by
  intro d hd
  unfold swDiagsOf group_cardinality_diags at hd
  rcases hsw : gm.2.filter (fun s => s.variant == Variant.Switch)
    with _ | ⟨s1, _ | ⟨s2, rest⟩⟩ <;> rw [hsw] at hd <;> dsimp only at hd
  · rw [List.mem_singleton] at hd
    subst hd
    rfl
  · split_ifs at hd <;>
      first
        | (rw [List.mem_singleton] at hd; subst hd; rfl)
        | simp at hd
  · rcases rest with _ | ⟨s3, rest⟩ <;> dsimp only at hd
    · split_ifs at hd <;>
        first
          | (rw [List.mem_singleton] at hd; subst hd; rfl)
          | simp at hd
    · rw [List.mem_singleton] at hd
      subst hd
      rfl

theorem flatMap_filter_other (g : String) :
    ∀ groups : List (String × List Symbol), g ∉ groups.map Prod.fst →
      (groups.flatMap swDiagsOf).filter (fun d => diagGroup d == some g) = [] := by
  intro groups
  induction groups with
  | nil => intro _; rfl
  | cons gm groups ih =>
    intro hg
    rw [List.map_cons, List.mem_cons] at hg
    push_neg at hg
    rw [List.flatMap_cons, List.filter_append, ih hg.2, List.append_nil]
    apply List.filter_eq_nil_iff.2
    intro d hd
    rw [swDiagsOf_tag gm d hd]
    simp
    exact fun h => hg.1 h.symm

theorem flatMap_filter_group :
    ∀ groups : List (String × List Symbol), (groups.map Prod.fst).Nodup →
      ∀ gm ∈ groups,
        (groups.flatMap swDiagsOf).filter (fun d => diagGroup d == some gm.1) =
          swDiagsOf gm := by
  intro groups
  induction groups with
  | nil => intro _ gm hgm; simp at hgm
  | cons gm0 groups ih =>
    intro hnd gm hgm
    rw [List.map_cons, List.nodup_cons] at hnd
    rw [List.flatMap_cons, List.filter_append]
    rcases List.mem_cons.1 hgm with rfl | hgm
    · rw [flatMap_filter_other gm.1 groups hnd.1]
      rw [List.append_nil]
      apply List.filter_eq_self.2
      intro d hd
      rw [swDiagsOf_tag gm d hd]
      simp
    · have hne : gm0.1 ≠ gm.1 := by
        intro h
        exact hnd.1 (h ▸ List.mem_map_of_mem Prod.fst hgm)
      rw [ih hnd.2 gm hgm]
      have : (swDiagsOf gm0).filter (fun d => diagGroup d == some gm.1) = [] := by
        apply List.filter_eq_nil_iff.2
        intro d hd
        rw [swDiagsOf_tag gm0 d hd]
        simp
        exact fun h => hne h
      rw [this, List.nil_append]

theorem swStep_none (ds : List Diag) :
    ∀ groups : List (String × List Symbol),
      groups.foldl swStep (none, ds) = (none, ds) := by
  intro groups
  induction groups with
  | nil => rfl
  | cons gm groups ih => rw [List.foldl_cons]; exact ih

theorem swt_fold :
    ∀ (groups : List (String × List Symbol)) (rows0 : List (String × String))
      (ds0 : List Diag) (rows : List (String × String)),
      (groups.foldl swStep (some rows0, ds0)).1 = some rows →
      (groups.foldl swStep (some rows0, ds0)).2 = ds0 ++ groups.flatMap swDiagsOf ∧
      rows.map Prod.fst = rows0.map Prod.fst ++ groups.map Prod.fst := by
  intro groups
  induction groups with
  | nil =>
    intro rows0 ds0 rows h
    simp only [List.foldl_nil] at h ⊢
    cases h
    simp
  | cons gm groups ih =>
    intro rows0 ds0 rows h
    rw [List.foldl_cons] at h ⊢
    rcases hdesc : symbols_description
        ((gm.2.filter (fun s => s.variant == Variant.Switch)) ++
          gm.2.filter (fun s => !(s.variant == Variant.Switch))) true true with _ | d
    · have hstep : swStep (some rows0, ds0) gm =
          (none, ds0 ++ group_cardinality_diags gm.1
            (gm.2.filter (fun s => s.variant == Variant.Switch))) := by
        simp only [swStep, hdesc]
      rw [hstep] at h
      rw [swStep_none _ groups] at h
      cases h
    · have hstep : swStep (some rows0, ds0) gm =
          (some (rows0 ++ [(gm.1, d)]), ds0 ++ group_cardinality_diags gm.1
            (gm.2.filter (fun s => s.variant == Variant.Switch))) := by
        simp only [swStep, hdesc]
      rw [hstep] at h ⊢
      rcases ih _ _ _ h with ⟨h1, h2⟩
      constructor
      · rw [h1, List.flatMap_cons, swDiagsOf, List.append_assoc]
      · rw [h2]
        simp

/-- C6: a switch group whose members contain exactly one switch, with that
switch expecting a pair, gets exactly one group-cardinality diagnostic
(the only-one-switch-in-pair-group one) and still appears as a row of the
switch table (whenever the table is produced at all). -/
theorem c6_lone_pair_switch (symbols : List Symbol) (g : String) (s : Symbol)
    (rows : List (String × String))
    (hrows : (switches_table symbols).1 = some rows)
    (hsw : (symbols.filter (fun x => x.global_switch_group == some g)).filter
      (fun x => x.variant == Variant.Switch) = [s])
    (hp : s.pair.getD false = true) :
    (switches_table symbols).2.filter (fun d => diagGroup d == some g) =
      [.onlyOneSwitchInPair g] ∧
    g ∈ rows.map Prod.fst := by
  have hsmem : s ∈ symbols ∧ s.global_switch_group = some g := by
    have h1 : s ∈ (symbols.filter (fun x => x.global_switch_group == some g)).filter
        (fun x => x.variant == Variant.Switch) := by
      rw [hsw]; exact List.mem_singleton.2 rfl
    have h2 := List.mem_of_mem_filter h1
    refine ⟨List.mem_of_mem_filter h2, ?_⟩
    have := List.of_mem_filter h2
    simpa using this
  have hkey : g ∈ sortedDedupStr (symbols.filterMap (fun x => x.global_switch_group)) := by
    rw [sortedDedupStr_mem]
    exact List.mem_filterMap.2 ⟨s, hsmem.1, hsmem.2⟩
  have hgm : (g, symbols.filter (fun x => x.global_switch_group == some g)) ∈
      group_by (fun x => x.global_switch_group) symbols := by
    unfold group_by
    exact List.mem_map.2 ⟨g, hkey, rfl⟩
  have hnd : ((group_by (fun x => x.global_switch_group) symbols).map Prod.fst).Nodup := by
    rw [group_by_keys]
    exact sortedDedupStr_nodup _
  have hfold := swt_fold (group_by (fun x => x.global_switch_group) symbols) [] []
    rows hrows
  constructor
  · show (switches_table symbols).2.filter (fun d => diagGroup d == some g) = _
    unfold switches_table
    rw [hfold.1, List.nil_append]
    rw [flatMap_filter_group _ hnd _ hgm]
    unfold swDiagsOf
    rw [hsw]
    unfold group_cardinality_diags
    simp [hp]
  · rw [hfold.2]
    simp only [List.map_nil, List.nil_append, group_by_keys]
    exact hkey

/-- C6 witness: a lone pair switch in group 12-a. -/
theorem c6_witness :
    (switches_table [pairSwitch]).2.filter
      (fun d => diagGroup d == some "12-a") = [.onlyOneSwitchInPair "12-a"] ∧
    "12-a" ∈ (([("12-a", "Schakelaars: 12")] : List (String × String)).map Prod.fst) :=
  c6_lone_pair_switch [pairSwitch] "12-a" pairSwitch [("12-a", "Schakelaars: 12")]
    (by decide) (by decide) (by decide)

theorem lookup0_bumpBy {κ : Type} [DecidableEq κ]
    (m : List (κ × Nat)) (k : κ) (n : Nat) (k0 : κ) :
    lookup0 (bumpBy m k n) k0 = lookup0 m k0 + if k0 = k then n else 0 := by
  induction m with
  | nil =>
    by_cases h : k0 = k <;> simp [bumpBy, lookup0, h]
  | cons p rest ih =>
    rcases p with ⟨k1, v⟩
    unfold bumpBy
    by_cases h1 : k1 = k
    · subst h1
      by_cases h0 : k0 = k1 <;> simp [lookup0, h0]
    · simp only [if_neg h1]
      by_cases h0 : k0 = k1
      · have hk : ¬ k0 = k := by rw [h0]; exact h1
        simp [lookup0, h0, hk, h1]
      · simp [lookup0, h0, ih]

theorem lookup20_bumpNest {κ₁ κ₂ : Type} [DecidableEq κ₁] [DecidableEq κ₂]
    (m : List (κ₁ × List (κ₂ × Nat))) (k1 : κ₁) (k2 : κ₂) (n : Nat) (q1 : κ₁) (q2 : κ₂) :
    lookup20 (bumpNest m k1 k2 n) q1 q2 =
      lookup20 m q1 q2 + if q1 = k1 ∧ q2 = k2 then n else 0 := by
  induction m with
  | nil =>
    by_cases h : q1 = k1
    · by_cases h2 : q2 = k2 <;>
        simp [bumpNest, lookup20, lookupL, lookup0, h, h2]
    · simp [bumpNest, lookup20, lookupL, lookup0, h]
  | cons p rest ih =>
    rcases p with ⟨k0, v⟩
    unfold bumpNest
    by_cases h1 : k0 = k1
    · subst h1
      by_cases h0 : q1 = k0
      · by_cases h2 : q2 = k2 <;>
          simp [lookup20, lookupL, lookup0_bumpBy, h0, h2]
      · simp [lookup20, lookupL, h0]
    · simp only [if_neg h1]
      by_cases h0 : q1 = k0
      · have hk : ¬ q1 = k1 := by rw [h0]; exact h1
        simp [lookup20, lookupL, h0, hk, h1]
      · simp only [lookup20, lookupL, if_neg h0] at ih ⊢
        exact ih

theorem descStep_lookups (s : Symbol) (st st' : DescSt)
    (h : descStep s st = some st') :
    (∀ sp, lookup0 st'.sockets sp = lookup0 st.sockets sp + sockC s sp) ∧
    (∀ sp, lookup0 st'.efixtures sp = lookup0 st.efixtures sp + efixC s sp) ∧
    (∀ sp, lookup0 st'.fixture_connections sp =
      lookup0 st.fixture_connections sp + fcC s sp) ∧
    (∀ sp, lookup0 st'.switches sp = lookup0 st.switches sp + swC s sp) ∧
    (∀ sp pw, lookup20 st'.fixtures sp pw = lookup20 st.fixtures sp pw + fixC s sp pw) ∧
    (∀ lb sp, lookup20 st'.labels lb sp = lookup20 st.labels lb sp + lblC s lb sp) := by
  unfold descStep at h
  rcases ha : descAct s with _ | act
  · rw [ha] at h
    simp at h
  · rw [ha] at h
    simp at h
    subst h
    cases act <;>
      refine ⟨fun sp => ?_, fun sp => ?_, fun sp => ?_, fun sp => ?_,
        fun sp pw => ?_, fun lb sp => ?_⟩ <;>
      simp [applyAct, sockC, efixC, fcC, swC, fixC, lblC, ha,
        lookup0_bumpBy, lookup20_bumpNest]

theorem descFold_none :
    ∀ l : List Symbol,
      l.foldl (fun acc s => acc.bind (descStep s)) none = none := by
  intro l
  induction l with
  | nil => rfl
  | cons s l ih =>
    rw [List.foldl_cons]
    exact ih

theorem descFold_some :
    ∀ (l : List Symbol) (st0 st : DescSt),
      l.foldl (fun acc s => acc.bind (descStep s)) (some st0) = some st →
      (∀ sp, lookup0 st.sockets sp =
        lookup0 st0.sockets sp + (l.map (fun s => sockC s sp)).sum) ∧
      (∀ sp, lookup0 st.efixtures sp =
        lookup0 st0.efixtures sp + (l.map (fun s => efixC s sp)).sum) ∧
      (∀ sp, lookup0 st.fixture_connections sp =
        lookup0 st0.fixture_connections sp + (l.map (fun s => fcC s sp)).sum) ∧
      (∀ sp, lookup0 st.switches sp =
        lookup0 st0.switches sp + (l.map (fun s => swC s sp)).sum) ∧
      (∀ sp pw, lookup20 st.fixtures sp pw =
        lookup20 st0.fixtures sp pw + (l.map (fun s => fixC s sp pw)).sum) ∧
      (∀ lb sp, lookup20 st.labels lb sp =
        lookup20 st0.labels lb sp + (l.map (fun s => lblC s lb sp)).sum) := by
  intro l
  induction l with
  | nil =>
    intro st0 st h
    simp only [List.foldl_nil, Option.some.injEq] at h
    subst h
    simp
  | cons s l ih =>
    intro st0 st h
    rw [List.foldl_cons,
      show (some st0).bind (descStep s) = descStep s st0 from rfl] at h
    rcases h1 : descStep s st0 with _ | st1
    · rw [h1, descFold_none] at h
      cases h
    · rw [h1] at h
      have e1 := descStep_lookups s st0 st1 h1
      have e2 := ih st1 st h
      refine ⟨fun sp => ?_, fun sp => ?_, fun sp => ?_, fun sp => ?_,
        fun sp pw => ?_, fun lb sp => ?_⟩ <;>
        simp only [List.map_cons, List.sum_cons]
      · have := e1.1 sp; have := e2.1 sp; omega
      · have := e1.2.1 sp; have := e2.2.1 sp; omega
      · have := e1.2.2.1 sp; have := e2.2.2.1 sp; omega
      · have := e1.2.2.2.1 sp; have := e2.2.2.2.1 sp; omega
      · have := e1.2.2.2.2.1 sp pw; have := e2.2.2.2.2.1 sp pw; omega
      · have := e1.2.2.2.2.2 lb sp; have := e2.2.2.2.2.2 lb sp; omega

theorem descBuckets_none_iff :
    ∀ (l : List Symbol) (st0 : DescSt),
      l.foldl (fun acc s => acc.bind (descStep s)) (some st0) = none ↔
      ∃ s ∈ l, descAct s = none := by
  intro l
  induction l with
  | nil => intro st0; simp
  | cons s l ih =>
    intro st0
    rw [List.foldl_cons,
      show (some st0).bind (descStep s) = descStep s st0 from rfl]
    rcases h1 : descStep s st0 with _ | st1
    · rw [descFold_none]
      have hact : descAct s = none := by
        unfold descStep at h1
        rcases h : descAct s with _ | a
        · rfl
        · rw [h] at h1; simp at h1
      constructor
      · intro _
        exact ⟨s, List.mem_cons_self _ _, hact⟩
      · intro _
        rfl
    · have hact : descAct s ≠ none := by
        unfold descStep at h1
        rcases h : descAct s with _ | a
        · rw [h] at h1; simp at h1
        · simp [h]
      rw [ih st1]
      constructor
      · intro hex
        rcases hex with ⟨x, hx, hxa⟩
        exact ⟨x, List.mem_cons_of_mem _ hx, hxa⟩
      · intro hex
        rcases hex with ⟨x, hx, hxa⟩
        rcases List.mem_cons.1 hx with rfl | hx
        · exact absurd hxa hact
        · exact ⟨x, hx, hxa⟩

/-- C7 counterexample: the rendered description is not invariant under
permutation of the input. The spaces `01` and `1` have equal natural-sort
keys, so the stable sort keeps first-appearance order and the two orders
render differently. -/
theorem c7_counterexample :
    symbols_description [outlet01, outlet1] false false ≠
      symbols_description [outlet1, outlet01] false false := by
  decide

/-- C7 amended: the per-bucket tallies are invariant under any permutation
of the input symbol list (and one order crashes iff the other does); the
rendered string itself can differ when distinct keys collide under the
natural-sort key (see the counterexample). -/
theorem c7_tallies_perm_invariant (l l' : List Symbol) (h : l.Perm l') :
    ((descBuckets l).isSome ↔ (descBuckets l').isSome) ∧
    ∀ st st', descBuckets l = some st → descBuckets l' = some st' →
      (∀ sp, lookup0 st.sockets sp = lookup0 st'.sockets sp) ∧
      (∀ sp, lookup0 st.efixtures sp = lookup0 st'.efixtures sp) ∧
      (∀ sp, lookup0 st.fixture_connections sp = lookup0 st'.fixture_connections sp) ∧
      (∀ sp, lookup0 st.switches sp = lookup0 st'.switches sp) ∧
      (∀ sp pw, lookup20 st.fixtures sp pw = lookup20 st'.fixtures sp pw) ∧
      (∀ lb sp, lookup20 st.labels lb sp = lookup20 st'.labels lb sp) := by
  constructor
  · unfold descBuckets
    rw [← Option.ne_none_iff_isSome, ← Option.ne_none_iff_isSome]
    rw [ne_eq, ne_eq, descBuckets_none_iff, descBuckets_none_iff]
    constructor
    · intro h1 h2
      exact h1 (by rcases h2 with ⟨x, hx, hxa⟩; exact ⟨x, (h.mem_iff).2 hx, hxa⟩)
    · intro h1 h2
      exact h1 (by rcases h2 with ⟨x, hx, hxa⟩; exact ⟨x, (h.mem_iff).1 hx, hxa⟩)
  · intro st st' h1 h2
    unfold descBuckets at h1 h2
    have d1 := descFold_some l {} st h1
    have d2 := descFold_some l' {} st' h2
    refine ⟨fun sp => ?_, fun sp => ?_, fun sp => ?_, fun sp => ?_,
      fun sp pw => ?_, fun lb sp => ?_⟩
    · rw [d1.1 sp, d2.1 sp, List.Perm.sum_eq (h.map _)]
    · rw [d1.2.1 sp, d2.2.1 sp, List.Perm.sum_eq (h.map _)]
    · rw [d1.2.2.1 sp, d2.2.2.1 sp, List.Perm.sum_eq (h.map _)]
    · rw [d1.2.2.2.1 sp, d2.2.2.2.1 sp, List.Perm.sum_eq (h.map _)]
    · rw [d1.2.2.2.2.1 sp pw, d2.2.2.2.2.1 sp pw, List.Perm.sum_eq (h.map _)]
    · rw [d1.2.2.2.2.2 lb sp, d2.2.2.2.2.2 lb sp, List.Perm.sum_eq (h.map _)]

/-- C7 witness: the swapped two-outlet lists have equal socket tallies. -/
theorem c7_witness :
    ((descBuckets [outlet01, outlet1]).isSome ↔
      (descBuckets [outlet1, outlet01]).isSome) ∧
    lookup0 (((descBuckets [outlet01, outlet1]).getD {}).sockets) "01" =
      lookup0 (((descBuckets [outlet1, outlet01]).getD {}).sockets) "01" := by
  have h := c7_tallies_perm_invariant [outlet01, outlet1] [outlet1, outlet01]
    (List.Perm.swap outlet1 outlet01 [])
  exact ⟨h.1, (h.2 _ _ (by decide) (by decide)).1 "01"⟩

end Elektra
